import Mathlib

/-!
Verification of the `web_navigator` tool registry
(`src/navigator/register.py`): a shallow embedding of the three tool
handlers `analyze_webpage`, `generate_test_automation_code` and
`generate_test_plan_markdown`, together with proofs about their input
normalization, validation, filename slugification, repair loop and
error handling.

External collaborators (the HTTP client, the language-model handle, the
filesystem, the Cypress subprocess and `ast.literal_eval`) are modelled
as environment records of functions returning `Except PyExc _`, so that
an exception can be injected at any call site.  Python's `json.loads`
and `json.dumps`, plus the string methods the source uses, are modelled
directly on `List Char`.
-/

namespace WebNav

/-- A Python exception as observed by the handlers: `type(e).__name__`,
`str(e)` and `traceback.format_exc()`. -/
structure PyExc where
  name : String
  msg : String
  trace : String
deriving DecidableEq


/-! ### Character classes and elementary string operations -/
/-- The regex class `[a-zA-Z0-9]` used by both `slugify` helpers. -/
def isAsciiAlnum (c : Char) : Bool :=
  decide ((97 ≤ c.toNat ∧ c.toNat ≤ 122) ∨ (65 ≤ c.toNat ∧ c.toNat ≤ 90) ∨
    (48 ≤ c.toNat ∧ c.toNat ≤ 57))


/-- ASCII lower-casing; after the `[^a-zA-Z0-9]+` substitution all
characters are ASCII, so this models Python `str.lower` faithfully there. -/
def toLowerAscii (c : Char) : Char :=
  if 65 ≤ c.toNat ∧ c.toNat ≤ 90 then Char.ofNat (c.toNat + 32) else c


/-- Whitespace stripped by Python `str.strip()`. -/
def isPyWs (c : Char) : Bool :=
  c == ' ' || c == '\t' || c == '\n' || c == '\r' || c == '\x0b' || c == '\x0c'


/-- Remove the longest run of `p`-characters from the end of a list. -/
def dropEndWhile (p : Char → Bool) : List Char → List Char
  | [] => []
  | c :: cs =>
    match dropEndWhile p cs with
    | [] => if p c then [] else [c]
    | d :: ds => c :: d :: ds


/-- Python `str.strip(chars)` on lists: drop `p`-characters from both ends. -/
def pyStripP (p : Char → Bool) (l : List Char) : List Char :=
  dropEndWhile p (l.dropWhile p)


/-- Python `str.strip()` (no argument: whitespace). -/
def pyStrip (s : String) : String :=
  String.mk (pyStripP isPyWs s.data)


/-- Python slicing `s[:n]` (by code points, as Python does). -/
def pyTake (n : Nat) (s : String) : String :=
  String.mk (s.data.take n)


/-- `str.replace(a, b)` for single characters; models the
`.replace("\x27", char 34)` quote normalization. -/
def swapQuotes (s : String) : String :=
  String.mk (s.data.map (fun c => if c = '\x27' then '"' else c))


/-- Python `str.startswith(p)`. -/
def pyStartsWith (s p : String) : Bool :=
  p.data.isPrefixOf s.data


/-- Python `str.lower()` restricted to the ASCII range (sufficient for the
`"failing"` detection the source performs). -/
def pyLowerStr (s : String) : String :=
  String.mk (s.data.map toLowerAscii)


/-- Python `pat in s` substring membership. -/
def containsSub (pat s : String) : Bool :=
  s.data.tails.any (fun t => pat.data.isPrefixOf t)


/-- Python `str.split(sep)` for a single-character separator (keeps empty
pieces, like Python's split with an explicit separator). -/
def splitChar (sep : Char) : List Char → List (List Char)
  | [] => [[]]
  | c :: cs =>
    if c = sep then [] :: splitChar sep cs
    else
      match splitChar sep cs with
      | [] => [[c]]
      | g :: gs => (c :: g) :: gs


/-- First index of a character (Python `str.find`, callers guard presence). -/
def findIdx (c : Char) : List Char → Nat
  | [] => 0
  | x :: xs => if x = c then 0 else findIdx c xs + 1


/-! ### Slugification (`slugify` in both generator handlers)

```python
def slugify(text):
    text = re.sub(r'[^a-zA-Z0-9]+', '_', text)
    return text.strip('_').lower()
```
-/
/-- One character of `re.sub(r'[^a-zA-Z0-9]+', '_', text)`: an
alphanumeric character is kept, anything else becomes an underscore. -/
def replUnd (c : Char) : Char :=
  if isAsciiAlnum c then c else '_'


/-- Collapse runs of consecutive underscores to a single underscore.
Composed with `List.map replUnd`, this is exactly
`re.sub(r'[^a-zA-Z0-9]+', '_', text)`. -/
def collapseU : List Char → List Char
  | [] => []
  | [c] => [c]
  | a :: b :: rest =>
    if a = '_' ∧ b = '_' then collapseU (b :: rest)
    else a :: collapseU (b :: rest)


/-- Underscore test for `str.strip('_')`. -/
def isUnd (c : Char) : Bool := c == '_'


/-- The `slugify` helper defined identically inside
`generate_test_automation_code` and `generate_test_plan_markdown`. -/
def slugify (s : String) : String :=
  String.mk ((pyStripP isUnd (collapseU (s.data.map replUnd))).map toLowerAscii)


/-- Filename derived by the code generator:
`f"{slugify(test_case)[:40]}.cy.js"`. -/
def codeFilename (testCase : String) : String :=
  pyTake 40 (slugify testCase) ++ ".cy.js"


/-- Filename stem derived by the test-plan generator before `".md"`:
`f"{current_date}_{slugify(test_name)}"`. -/
def planStem (date testName : String) : String :=
  date ++ "_" ++ slugify testName


/-- Filename derived by the test-plan generator:
`f"{current_date}_{slugify(test_name)}.md"`. -/
def planFilename (date testName : String) : String :=
  planStem date testName ++ ".md"


def isLowerSlugChar (c : Char) : Bool :=
  decide ((97 ≤ c.toNat ∧ c.toNat ≤ 122) ∨ (48 ≤ c.toNat ∧ c.toNat ≤ 57) ∨ c.toNat = 95)


/-- No two consecutive underscores. -/
def noDubs : List Char → Bool
  | [] => true
  | [_] => true
  | a :: b :: t => !(decide (a = '_' ∧ b = '_')) && noDubs (b :: t)


/-! ### Path model: `os.path.join` and `os.path.abspath` -/
/-- Process `normpath` segments over a stack (most recent first):
empty and `.` segments vanish, `..` pops, anything else pushes. -/
def normGo (stack : List (List Char)) : List (List Char) → List (List Char)
  | [] => stack.reverse
  | s :: rest =>
    if s = [] ∨ s = ['.'] then normGo stack rest
    else if s = ['.', '.'] then normGo stack.tail rest
    else normGo (s :: stack) rest


/-- Join segments with `/`. -/
def joinSeg : List (List Char) → List Char
  | [] => []
  | [s] => s
  | s :: t => s ++ '/' :: joinSeg t


/-- `os.path.join(a, b)` for a relative second component. -/
def osJoin (a b : String) : String := a ++ "/" ++ b


/-- `os.path.abspath` for an already-absolute path: split on `/`,
resolve `.`/`..`, and re-join under a leading slash. -/
def osAbspath (p : String) : String :=
  String.mk ('/' :: joinSeg (normGo [] (splitChar '/' p.data)))


/-! ### JSON values and `json.dumps` -/
/-- A Python value produced by `json.loads` (floats are kept as a
mantissa/decimal-exponent pair; `NaN`/`Infinity` as literals). -/
inductive JVal where
  | jnull
  | jbool (b : Bool)
  | jint (n : Int)
  | jfloat (mant : Int) (ex : Int)
  | jspecial (lit : String)
  | jstr (s : String)
  | jarr (elems : List JVal)
  | jobj (members : List (String × JVal))


mutual
/-- Python `==` on parsed JSON values. -/
def jvalEqb : JVal → JVal → Bool
  | .jnull, .jnull => true
  | .jbool a, .jbool b => a == b
  | .jint a, .jint b => a == b
  | .jfloat a b, .jfloat c d => a == c && b == d
  | .jspecial a, .jspecial b => a == b
  | .jstr a, .jstr b => a == b
  | .jarr a, .jarr b => jvalListEqb a b
  | .jobj a, .jobj b => jvalObjEqb a b
  | _, _ => false

def jvalListEqb : List JVal → List JVal → Bool
  | [], [] => true
  | a :: as, b :: bs => jvalEqb a b && jvalListEqb as bs
  | _, _ => false

def jvalObjEqb : List (String × JVal) → List (String × JVal) → Bool
  | [], [] => true
  | (k1, v1) :: as, (k2, v2) :: bs => k1 == k2 && jvalEqb v1 v2 && jvalObjEqb as bs
  | _, _ => false
end

/-- Python truthiness (`if not x`). -/
def JVal.falsy : JVal → Bool
  | .jnull => true
  | .jbool b => !b
  | .jint n => n == 0
  | .jfloat m _ => m == 0
  | .jspecial _ => false
  | .jstr s => s == ""
  | .jarr es => es.isEmpty
  | .jobj ms => ms.isEmpty


/-- `type(v).__name__`. -/
def JVal.typeName : JVal → String
  | .jnull => "NoneType"
  | .jbool _ => "bool"
  | .jint _ => "int"
  | .jfloat _ _ => "float"
  | .jspecial _ => "float"
  | .jstr _ => "str"
  | .jarr _ => "list"
  | .jobj _ => "dict"


/-- Dictionary lookup (`data.get(k)` on a parsed object). -/
def lookupJ : List (String × JVal) → String → Option JVal
  | [], _ => none
  | (k0, v) :: rest, k => if k0 = k then some v else lookupJ rest k


/-- Python dict insertion used by the JSON object parser: an existing key
keeps its position but is updated (last duplicate wins). -/
def objInsert : List (String × JVal) → String → JVal → List (String × JVal)
  | [], k, v => [(k, v)]
  | (k0, v0) :: rest, k, v =>
    if k0 = k then (k0, v) :: rest else (k0, v0) :: objInsert rest k v


mutual
/-- Python `str()` of a parsed value (used by f-string interpolation). -/
def pyStr : JVal → String
  | .jstr s => s
  | v => pyRepr v

/-- Python `repr()` of a parsed value (containers print their elements
with `repr`; string escaping inside `repr` is not modelled). -/
def pyRepr : JVal → String
  | .jnull => "None"
  | .jbool true => "True"
  | .jbool false => "False"
  | .jint n => toString n
  | .jfloat m e => toString m ++ "e" ++ toString e
  | .jspecial lit => lit
  | .jstr s => "\x27" ++ s ++ "\x27"
  | .jarr es => "[" ++ pyReprList es ++ "]"
  | .jobj ms => "\x7b" ++ pyReprObj ms ++ "\x7d"

def pyReprList : List JVal → String
  | [] => ""
  | [v] => pyRepr v
  | v :: rest => pyRepr v ++ ", " ++ pyReprList rest

def pyReprObj : List (String × JVal) → String
  | [] => ""
  | [(k, v)] => "\x27" ++ k ++ "\x27: " ++ pyRepr v
  | (k, v) :: rest => "\x27" ++ k ++ "\x27: " ++ pyRepr v ++ ", " ++ pyReprObj rest
end

/-- Lower-case hex digit. -/
def hexDigit (n : Nat) : Char :=
  if n < 10 then Char.ofNat (48 + n) else Char.ofNat (87 + n)


/-- Four-digit hex rendering for `\\uXXXX` escapes. -/
def u4 (n : Nat) : List Char :=
  [hexDigit (n / 4096 % 16), hexDigit (n / 256 % 16), hexDigit (n / 16 % 16), hexDigit (n % 16)]


/-- `json.dumps` escaping of one character (`ensure_ascii=True`). -/
def escJsonChar (c : Char) : List Char :=
  if c = '"' then ['\\', '"']
  else if c = '\\' then ['\\', '\\']
  else if c = '\n' then ['\\', 'n']
  else if c = '\t' then ['\\', 't']
  else if c = '\r' then ['\\', 'r']
  else if c = '\x08' then ['\\', 'b']
  else if c = '\x0c' then ['\\', 'f']
  else if c.toNat < 32 then '\\' :: 'u' :: u4 c.toNat
  else if c.toNat < 127 then [c]
  else if c.toNat < 65536 then '\\' :: 'u' :: u4 c.toNat
  else
    let n := c.toNat - 65536
    ('\\' :: 'u' :: u4 (55296 + n / 1024)) ++ ('\\' :: 'u' :: u4 (56320 + n % 1024))


/-- `json.dumps` of a string literal. -/
def dumpStr (s : String) : List Char :=
  '"' :: (s.data.flatMap escJsonChar) ++ ['"']


mutual
/-- `json.dumps` with default separators. -/
def dumpV : JVal → List Char
  | .jnull => "null".data
  | .jbool true => "true".data
  | .jbool false => "false".data
  | .jint n => (toString n).data
  | .jfloat m e => (toString m ++ "e" ++ toString e).data
  | .jspecial lit => lit.data
  | .jstr s => dumpStr s
  | .jarr es => '[' :: dumpArr es ++ [']']
  | .jobj ms => '\x7b' :: dumpObj ms ++ ['\x7d']

def dumpArr : List JVal → List Char
  | [] => []
  | [v] => dumpV v
  | v :: rest => dumpV v ++ ',' :: ' ' :: dumpArr rest

def dumpObj : List (String × JVal) → List Char
  | [] => []
  | [(k, v)] => dumpStr k ++ ':' :: ' ' :: dumpV v
  | (k, v) :: rest => dumpStr k ++ ':' :: ' ' :: dumpV v ++ ',' :: ' ' :: dumpObj rest
end

/-- `json.dumps` producing the returned JSON string. -/
def jsonDumps (v : JVal) : String :=
  String.mk (dumpV v)


/-! ### `json.loads` -/
/-- JSON whitespace accepted by `json.loads`. -/
def isJsonWs (c : Char) : Bool :=
  c == ' ' || c == '\t' || c == '\n' || c == '\r'


def skipWs (l : List Char) : List Char :=
  l.dropWhile isJsonWs


def hexVal (c : Char) : Option Nat :=
  if 48 ≤ c.toNat ∧ c.toNat ≤ 57 then some (c.toNat - 48)
  else if 97 ≤ c.toNat ∧ c.toNat ≤ 102 then some (c.toNat - 87)
  else if 65 ≤ c.toNat ∧ c.toNat ≤ 70 then some (c.toNat - 55)
  else none


/-- Decode one escape character (other than `\\u`). -/
def escChar (c : Char) : Option Char :=
  if c = '"' then some '"'
  else if c = '\\' then some '\\'
  else if c = '/' then some '/'
  else if c = 'b' then some '\x08'
  else if c = 'f' then some '\x0c'
  else if c = 'n' then some '\n'
  else if c = 'r' then some '\r'
  else if c = 't' then some '\t'
  else none


/-- Scalar for a `\\uXXXX` escape (a lone surrogate becomes U+FFFD;
surrogate pairing is not modelled). -/
def uniChar (n : Nat) : Char :=
  if 55296 ≤ n ∧ n ≤ 57343 then '\ufffd' else Char.ofNat n


/-- Parse the body of a JSON string literal after the opening quote,
returning the decoded characters and the remaining input.  Strict mode:
raw control characters are rejected. -/
def parseStrBody : List Char → Option (List Char × List Char)
  | [] => none
  | c :: cs =>
    if c = '"' then some ([], cs)
    else if c = '\\' then
      match cs with
      | [] => none
      | e :: cs2 =>
        if e = 'u' then
          match cs2 with
          | a :: b :: c3 :: d :: rest =>
            match hexVal a, hexVal b, hexVal c3, hexVal d with
            | some ha, some hb, some hc, some hd =>
              match parseStrBody rest with
              | some (out, rem) => some (uniChar (((ha * 16 + hb) * 16 + hc) * 16 + hd) :: out, rem)
              | none => none
            | _, _, _, _ => none
          | _ => none
        else
          match escChar e with
          | some ec =>
            match parseStrBody cs2 with
            | some (out, rem) => some (ec :: out, rem)
            | none => none
          | none => none
    else if c.toNat < 32 then none
    else
      match parseStrBody cs with
      | some (out, rem) => some (c :: out, rem)
      | none => none


def isDig (c : Char) : Bool := decide (48 ≤ c.toNat ∧ c.toNat ≤ 57)


def digitsToNat (l : List Char) : Nat :=
  l.foldl (fun a c => a * 10 + (c.toNat - 48)) 0


/-- Parse a JSON number token (strict grammar of `json.loads`). -/
def parseNum (cs : List Char) : Option (JVal × List Char) :=
  let (neg, cs1) := match cs with
    | '-' :: r => (true, r)
    | _ => (false, cs)
  let ds := cs1.takeWhile isDig
  let r1 := cs1.dropWhile isDig
  if ds = [] then none
  else if ds.head? = some '0' ∧ ds.length ≠ 1 then none
  else
    let intVal : Int := if neg then -(digitsToNat ds : Int) else (digitsToNat ds : Int)
    match r1 with
    | '.' :: r2 =>
      let fs := r2.takeWhile isDig
      let r3 := r2.dropWhile isDig
      if fs = [] then none
      else
        let mant0 : Int := intVal * (10 ^ fs.length : Nat) +
          (if neg then -(digitsToNat fs : Int) else (digitsToNat fs : Int))
        match r3 with
        | 'e' :: r4 => parseExp mant0 (-(fs.length : Int)) r4
        | 'E' :: r4 => parseExp mant0 (-(fs.length : Int)) r4
        | _ => some (.jfloat mant0 (-(fs.length : Int)), r3)
    | 'e' :: r2 => parseExp intVal 0 r2
    | 'E' :: r2 => parseExp intVal 0 r2
    | _ => some (.jint intVal, r1)
where
  parseExp (mant : Int) (shift : Int) (r : List Char) : Option (JVal × List Char) :=
    let (eneg, r5) := match r with
      | '-' :: t => (true, t)
      | '+' :: t => (false, t)
      | _ => (false, r)
    let es := r5.takeWhile isDig
    let r6 := r5.dropWhile isDig
    if es = [] then none
    else
      let ev : Int := if eneg then -(digitsToNat es : Int) else (digitsToNat es : Int)
      some (.jfloat mant (shift + ev), r6)


mutual
/-- Parse one JSON value (callers skip leading whitespace). -/
def parseVal : Nat → List Char → Option (JVal × List Char)
  | 0, _ => none
  | fuel + 1, cs =>
    match cs with
    | '\x7b' :: rest =>
      match skipWs rest with
      | '\x7d' :: r2 => some (.jobj [], r2)
      | r =>
        match parseObjItems fuel [] r with
        | some (ms, r2) => some (.jobj ms, r2)
        | none => none
    | '[' :: rest =>
      match skipWs rest with
      | ']' :: r2 => some (.jarr [], r2)
      | r =>
        match parseArrItems fuel [] r with
        | some (es, r2) => some (.jarr es, r2)
        | none => none
    | '"' :: rest =>
      match parseStrBody rest with
      | some (content, rem) => some (.jstr (String.mk content), rem)
      | none => none
    | 't' :: 'r' :: 'u' :: 'e' :: r => some (.jbool true, r)
    | 'f' :: 'a' :: 'l' :: 's' :: 'e' :: r => some (.jbool false, r)
    | 'n' :: 'u' :: 'l' :: 'l' :: r => some (.jnull, r)
    | 'N' :: 'a' :: 'N' :: r => some (.jspecial "NaN", r)
    | 'I' :: 'n' :: 'f' :: 'i' :: 'n' :: 'i' :: 't' :: 'y' :: r => some (.jspecial "Infinity", r)
    | '-' :: 'I' :: 'n' :: 'f' :: 'i' :: 'n' :: 'i' :: 't' :: 'y' :: r =>
      some (.jspecial "-Infinity", r)
    | _ => parseNum cs

/-- Parse the members of a JSON object after `{` (whitespace skipped). -/
def parseObjItems : Nat → List (String × JVal) → List Char → Option (List (String × JVal) × List Char)
  | 0, _, _ => none
  | fuel + 1, acc, cs =>
    match cs with
    | '"' :: rest =>
      match parseStrBody rest with
      | some (key, r1) =>
        match skipWs r1 with
        | ':' :: r2 =>
          match parseVal fuel (skipWs r2) with
          | some (v, r3) =>
            match skipWs r3 with
            | ',' :: r4 => parseObjItems fuel (objInsert acc (String.mk key) v) (skipWs r4)
            | '\x7d' :: r4 => some (objInsert acc (String.mk key) v, r4)
            | _ => none
          | none => none
        | _ => none
      | none => none
    | _ => none

/-- Parse the elements of a JSON array after `[` (whitespace skipped). -/
def parseArrItems : Nat → List JVal → List Char → Option (List JVal × List Char)
  | 0, _, _ => none
  | fuel + 1, acc, cs =>
    match parseVal fuel cs with
    | some (v, r1) =>
      match skipWs r1 with
      | ',' :: r2 => parseArrItems fuel (acc ++ [v]) (skipWs r2)
      | ']' :: r2 => some (acc ++ [v], r2)
      | _ => none
    | none => none
end

/-- Python `json.loads`: parse one value and require only trailing
whitespace; `none` models a raised `JSONDecodeError`. -/
def jsonParse (s : String) : Option JVal :=
  match parseVal (s.data.length + 1) (skipWs s.data) with
  | some (v, rem) => if skipWs rem = [] then some v else none
  | none => none


/-! ### Prompt templates -/
/-- Literal piece 1 of the corresponding f-string template. -/
def urlPromptP1 : String :=
  "Extract all important links from the following HTML content. \n            Focus only on links that represent important child pages or relevant content (not navigation, footer, or utility links).\n            Format your response as a simple list of URLs, one per line.\n            \n            HTML Content:\n            "


/-- Literal piece 2 of the corresponding f-string template. -/
def urlPromptP2 : String :=
  "  # Limit content length to avoid token limits\n            "


/-- Literal piece 1 of the corresponding f-string template. -/
def testPromptP1 : String :=
  "As a QA engineer, analyze the following HTML content and generate high-quality test cases focusing on functional testing and user interactions.\n\n            HTML Content:\n            "


/-- Literal piece 2 of the corresponding f-string template. -/
def testPromptP2 : String :=
  "  # Limit content length to avoid token limits\n\n            Generate test cases that cover:\n\n            1. Core Functionality\n            - Critical user flows and main features\n            - Data validation and error handling\n            - State management and persistence\n            - Form submissions and data processing\n\n            2. User Interface\n            - Interactive elements (forms, buttons, links)\n            - Input validation and constraints\n            - Dynamic content and updates\n            - User input handling\n\n            For each test case, provide a brief description of what to test.\n            Format your response as a list of test case descriptions, one per line.\n\n            Only generate test cases for elements and functionality that are actually present in the HTML content.\n            "


/-- Literal piece 1 of the corresponding f-string template. -/
def codePromptP1 : String :=
  "\n            You are an expert QA automation engineer. Write a Cypress JS test script for the following test case, starting from the given URL.\n\n            Start Page URL: "


/-- Literal piece 2 of the corresponding f-string template. -/
def codePromptP2 : String :=
  "\n            Test Case Description: "


/-- Literal piece 3 of the corresponding f-string template. -/
def codePromptP3 : String :=
  "\n\n            Requirements:\n            - Use Cypress best practices.\n            - Add comments to explain each step.\n            - Only output valid Cypress JS code (no markdown, no explanations).\n            - Use the following HTML content to help you write the test script:\n            "


/-- Literal piece 4 of the corresponding f-string template. -/
def codePromptP4 : String :=
  "\n            "


/-- Literal piece 1 of the corresponding f-string template. -/
def fixPromptP1 : String :=
  "\n                The following Cypress test code failed when executed. Here is the code:\n                ----\n                "


/-- Literal piece 2 of the corresponding f-string template. -/
def fixPromptP2 : String :=
  "\n                ----\n                And here is the output from running the test:\n                ----\n                "


/-- Literal piece 3 of the corresponding f-string template. -/
def fixPromptP3 : String :=
  "\n                ----\n                Please fix the Cypress test code so that it addresses the failure(s). Only output the corrected Cypress JS code (no markdown, no explanations).\n                "


/-- Literal piece 1 of the corresponding f-string template. -/
def planPromptP1 : String :=
  "\n            You are an expert QA engineer. Create a comprehensive test plan in markdown format for the following application and test cases.\n            \n            Test Plan Name: "


/-- Literal piece 2 of the corresponding f-string template. -/
def planPromptP2 : String :=
  "\n            Application URL: "


/-- Literal piece 3 of the corresponding f-string template. -/
def planPromptP3 : String :=
  "\n            Test Cases: "


/-- Literal piece 4 of the corresponding f-string template. -/
def planPromptP4 : String :=
  "\n            \n            Requirements:\n            - Format as a proper markdown document with headers, lists, and tables where appropriate\n            - Include emoticons to improve readability and visual appeal (e.g., \u00e2\u0153\u2026 for pass criteria, \u011f\u0178\u201d for test steps, etc.)\n            - Include the following sections:\n              1. Introduction (with emoticons like \u011f\u0178\u201c, \u011f\u0178\u00af)\n              2. Test Objectives (with emoticons like \u011f\u0178\u00af, \u011f\u0178\u0161\u20ac)\n              3. Test Environment (with emoticons like \u011f\u0178\u2019\u00bb, \u011f\u0178\u0152, \u011f\u0178\u201c\u00b1)\n              4. Test Cases (with emoticons like \u00e2\u0153\u2026, \u00e2\u0152, \u011f\u0178\u201d)\n              5. Test Schedule (with emoticons like \u011f\u0178\u201c\u2026, \u00e2\u00b1\u00ef\u00b8)\n              6. Risk Assessment (with emoticons like \u00e2\u0161\u00a0\u00ef\u00b8, \u011f\u0178\u203a\u2018)\n              7. Exit Criteria (with emoticons like \u011f\u0178, \u011f\u0178\u2013\u00ef\u00b8)\n            - For each test case, include:\n              * Test ID\n              * Test Description\n              * Prerequisites\n              * Test Steps with emoticons\n              * Expected Results\n              * Priority (with appropriate emoticon)\n            - Only output valid markdown content (no extra explanations)\n            - Be creative with emoticon usage to make the document visually appealing and easy to scan\n            "


/-- `url_prompt` of `analyze_webpage` (the caller passes the truncated
HTML `html_content[:15000]`). -/
def urlPrompt (html : String) : String :=
  urlPromptP1 ++ html ++ urlPromptP2


/-- `test_prompt` of `analyze_webpage`. -/
def testPrompt (html : String) : String :=
  testPromptP1 ++ html ++ testPromptP2


/-- `prompt` of `generate_test_automation_code` (f-string interpolation
uses Python `str()` of the parsed values). -/
def codePrompt (start_page_url test_case relevant_html : JVal) : String :=
  codePromptP1 ++ pyStr start_page_url ++ codePromptP2 ++ pyStr test_case ++
    codePromptP3 ++ pyStr relevant_html ++ codePromptP4


/-- `fix_prompt` of the repair pass. -/
def fixPrompt (code cypress_output : String) : String :=
  fixPromptP1 ++ code ++ fixPromptP2 ++ cypress_output ++ fixPromptP3


/-- `prompt` of `generate_test_plan_markdown`. -/
def planPrompt (test_name application_url test_cases : JVal) : String :=
  planPromptP1 ++ pyStr test_name ++ planPromptP2 ++ pyStr application_url ++
    planPromptP3 ++ pyStr test_cases ++ planPromptP4


/-! ### Events, environments and exception values -/
/-- Observable external effects of a handler run, in program order. -/
inductive Event where
  | getLlm
  | llmCall (prompt : String)
  | httpGet (url : String)
  | makedirs (dir : String)
  | fileWrite (path content : String)
  | runProc (path : String)
deriving DecidableEq


def isLlmCall : Event → Bool
  | .llmCall _ => true
  | _ => false


/-- Number of model invocations in a trace. -/
def countLlmCalls (tr : List Event) : Nat :=
  (tr.filter isLlmCall).length


/-- An HTTP response as seen through `httpx` (`status_code`, `text`). -/
structure HttpResp where
  status : Nat
  text : String


/-- Environment of `analyze_webpage`: the HTTP client, `builder.get_llm`
(`.ok false` models a falsy handle) and `llm.invoke` per call index. -/
structure AnalyzeEnv where
  httpGet : String → Except PyExc HttpResp
  getLlm : Except PyExc Bool
  llmInvoke : Nat → String → Except PyExc String


/-- Environment of `generate_test_automation_code`; `fileDir` is
`os.path.dirname(__file__)` and `runProc` returns decoded
(stdout, stderr) of the Cypress subprocess. -/
structure CodeEnv where
  getLlm : Except PyExc Bool
  llmInvoke : Nat → String → Except PyExc String
  makedirs : String → Except PyExc Unit
  writeFile : String → String → Except PyExc Unit
  runProc : String → Except PyExc (String × String)
  fileDir : String


/-- Environment of `generate_test_plan_markdown`; `today` is
`datetime.datetime.now().strftime("%Y%m%d")` and `literalEval` models
`ast.literal_eval`. -/
structure PlanEnv where
  literalEval : String → Except PyExc JVal
  getLlm : Except PyExc Bool
  llmInvoke : Nat → String → Except PyExc String
  makedirs : String → Except PyExc Unit
  writeFile : String → String → Except PyExc Unit
  today : String
  fileDir : String


/-- `{"error": msg}`. -/
def jerr (msg : String) : JVal :=
  .jobj [("error", .jstr msg)]


/-- Error result of the two generator handlers:
`{"error": f"{type(e).__name__}: {str(e)}", "traceback": tb}`. -/
def errTb (e : PyExc) : JVal :=
  .jobj [("error", .jstr (e.name ++ ": " ++ e.msg)), ("traceback", .jstr e.trace)]


/-- Canonical trace text for exceptions the embedding itself raises. -/
def pyTraceText (n : String) : String :=
  "Traceback (most recent call last):\n" ++ n


/-- `TypeError` from `in` on a non-container (message text approximated). -/
def typeNotIterableExc (v : JVal) : PyExc :=
  ⟨"TypeError", "argument of type \x27" ++ v.typeName ++ "\x27 is not iterable",
    pyTraceText "TypeError"⟩


/-- `TypeError` from `re.sub` on a non-string (message text approximated). -/
def slugTypeErr (v : JVal) : PyExc :=
  ⟨"TypeError", "expected string or bytes-like object, got \x27" ++ v.typeName ++ "\x27",
    pyTraceText "TypeError"⟩


/-- `AttributeError` from `.strip()` on a non-string (message text
approximated). -/
def stripAttrErr (v : JVal) : PyExc :=
  ⟨"AttributeError", "\x27" ++ v.typeName ++ "\x27 object has no attribute \x27strip\x27",
    pyTraceText "AttributeError"⟩


/-- `HTTPStatusError` from `response.raise_for_status()` (message text
approximated). -/
def httpStatusErr (status : Nat) (url : String) : PyExc :=
  ⟨"HTTPStatusError", "error response \x27" ++ toString status ++ "\x27 for url \x27" ++ url ++ "\x27",
    pyTraceText "HTTPStatusError"⟩


/-! ### Python operations on parsed values -/
instance : BEq JVal := ⟨jvalEqb⟩


/-- Python `not x` where `x` came from `data.get(k)` (absent gives `None`). -/
def pyNotOpt : Option JVal → Bool
  | none => true
  | some v => v.falsy


/-- Python `k in data` for a parsed JSON value: key test on dicts,
membership on lists, substring on strings, `TypeError` otherwise. -/
def pyInStr (k : String) : JVal → Except PyExc Bool
  | .jobj m => .ok (lookupJ m k).isSome
  | .jarr es => .ok (es.contains (.jstr k))
  | .jstr s => .ok (containsSub k s)
  | v => .error (typeNotIterableExc v)


/-- Python `data[k]` with a string key. -/
def pyGetStrKey : JVal → String → Except PyExc JVal
  | .jobj m, k =>
    match lookupJ m k with
    | some v => .ok v
    | none => .error ⟨"KeyError", "\x27" ++ k ++ "\x27", pyTraceText "KeyError"⟩
  | .jarr _, _ =>
    .error ⟨"TypeError", "list indices must be integers or slices, not str", pyTraceText "TypeError"⟩
  | .jstr _, _ =>
    .error ⟨"TypeError", "string indices must be integers", pyTraceText "TypeError"⟩
  | v, _ =>
    .error ⟨"TypeError", "\x27" ++ v.typeName ++ "\x27 object is not subscriptable", pyTraceText "TypeError"⟩


/-- `slugify` applied to a parsed value (`re.sub` raises `TypeError` on a
non-string). -/
def pySlugJ : JVal → Except PyExc String
  | .jstr s => .ok (slugify s)
  | v => .error (slugTypeErr v)


/-- `[x.strip() for x in s.split(nl) if x.strip()]`. -/
def splitTrimDrop (s : String) : List String :=
  (((splitChar '\n' s.data).map (pyStripP isPyWs)).filter (fun l => !l.isEmpty)).map String.mk


/-! ### `analyze_webpage` -/
/-- Regex `https?://` + at least one further non-space character,
attempted at the current position; on success the match is the maximal
non-whitespace run. -/
def urlMatchAt (l : List Char) : Option (List Char) :=
  let t := l.takeWhile (fun c => !isPyWs c)
  if "https://".data.isPrefixOf l ∧ 8 < t.length then some t
  else if "http://".data.isPrefixOf l ∧ 7 < t.length then some t
  else none


/-- Leftmost match of `re.search(r'https?://` + `\S+', query)`. -/
def findUrl : List Char → Option (List Char)
  | [] => none
  | c :: cs =>
    match urlMatchAt (c :: cs) with
    | some m => some m
    | none => findUrl cs


/-- Fallback of the analyzer normalization on `json.JSONDecodeError`:
extract the first URL-looking substring, else keep the query as is. -/
def urlFallback (query : String) : JVal :=
  match findUrl query.data with
  | some m => .jstr (String.mk m)
  | none => .jstr query


/-- Input normalization of `analyze_webpage`: brace-slice or whole-string
JSON parse (quotes swapped), unwrap a `query` key of a parsed dict, and
fall back to regex URL extraction on parse failure.  The result is the
value of the `query` variable afterwards. -/
def analyzeNormalize (query : String) : JVal :=
  if query.data.contains '\x7b' ∧ query.data.contains '\x7d' then
    let i := findIdx '\x7b' query.data
    let j := findIdx '\x7d' query.data
    let json_part := String.mk ((query.data.drop i).take (j + 1 - i))
    match jsonParse (swapQuotes json_part) with
    | some (.jobj m) =>
      match lookupJ m "query" with
      | some v => v
      | none => .jstr query
    | some _ => .jstr query
    | none => urlFallback query
  else
    match jsonParse (swapQuotes (pyStrip query)) with
    | some (.jobj m) =>
      match lookupJ m "query" with
      | some v => v
      | none => .jstr query
    | some _ => .jstr query
    | none => urlFallback query


/-- Body of `analyze_webpage` inside its top-level `try`. -/
def analyzeBody (env : AnalyzeEnv) (query : String) : Except PyExc JVal × List Event :=
  match analyzeNormalize query with
  | .jstr qs =>
    let url := pyStrip qs
    if !(pyStartsWith url "http://" || pyStartsWith url "https://") then
      (.ok (jerr "Please provide a valid URL starting with http:// or https://"), [])
    else
      match env.httpGet url with
      | .error e => (.error e, [.httpGet url])
      | .ok resp =>
        if 400 ≤ resp.status then
          (.error (httpStatusErr resp.status url), [.httpGet url])
        else
          match env.getLlm with
          | .error e => (.error e, [.httpGet url, .getLlm])
          | .ok false =>
            (.ok (jerr "Unable to access LLM for content analysis"), [.httpGet url, .getLlm])
          | .ok true =>
            let p1 := urlPrompt (pyTake 15000 resp.text)
            match env.llmInvoke 0 p1 with
            | .error e => (.error e, [.httpGet url, .getLlm, .llmCall p1])
            | .ok r1 =>
              let urls := splitTrimDrop r1
              let p2 := testPrompt (pyTake 15000 resp.text)
              match env.llmInvoke 1 p2 with
              | .error e => (.error e, [.httpGet url, .getLlm, .llmCall p1, .llmCall p2])
              | .ok r2 =>
                let tests := splitTrimDrop r2
                (.ok (.jobj [("urls", .jarr (urls.map .jstr)), ("tests", .jarr (tests.map .jstr))]),
                  [.httpGet url, .getLlm, .llmCall p1, .llmCall p2])
  | v => (.error (stripAttrErr v), [])


/-- `analyze_webpage`: the top-level `except` turns any exception into
`{"error": str(e)}`; every path returns a JSON string. -/
def analyze_webpage (env : AnalyzeEnv) (query : String) : String × List Event :=
  match analyzeBody env query with
  | (.ok j, tr) => (jsonDumps j, tr)
  | (.error e, tr) => (jsonDumps (jerr e.msg), tr)



/-! ### `generate_test_automation_code` -/
/-- The input-format error message of the code generator. -/
def genCodeFormatMsg : String :=
  "Input must be a JSON string with \x27test_case\x27, \x27start_page_url\x27, and optionally \x27relevant_html_content_to_test\x27 fields, or a \x27query\x27 key containing such a JSON string."


/-- `data.get` of the three fields; non-dicts raise (`AttributeError`),
which the surrounding `except` folds into the format error. -/
def getThreeFields : JVal → Except Unit (Option JVal × Option JVal × Option JVal)
  | .jobj m =>
    .ok (lookupJ m "test_case", lookupJ m "start_page_url",
      lookupJ m "relevant_html_content_to_test")
  | _ => .error ()


/-- The `try` block of the code generator that parses the payload and
extracts `test_case`, `start_page_url`, `relevant_html_content_to_test`;
`.error ()` is any exception caught by the inner `except`. -/
def parseFieldsCode (query : String) : Except Unit (Option JVal × Option JVal × Option JVal) :=
  match jsonParse (swapQuotes query) with
  | none => .error ()
  | some data =>
    match pyInStr "query" data with
    | .error _ => .error ()
    | .ok true =>
      match pyGetStrKey data "query" with
      | .error _ => .error ()
      | .ok (.jstr s) =>
        match jsonParse (swapQuotes s) with
        | none => .error ()
        | some d2 => getThreeFields d2
      | .ok _ => getThreeFields data
    | .ok false => getThreeFields data


/-- Success result of the code generator. -/
def genCodeResult (file_path : String) : JVal :=
  .jobj [("result", .jstr "1 test case generated"), ("test_file_path", .jstr file_path)]


/-- Body of `generate_test_automation_code` inside its top-level `try`. -/
def genCodeBody (env : CodeEnv) (query : String) : Except PyExc JVal × List Event :=
  match parseFieldsCode query with
  | .error _ => (.ok (jerr genCodeFormatMsg), [])
  | .ok (test_case, start_page_url, relevant_html) =>
    if pyNotOpt test_case || pyNotOpt start_page_url then
      (.ok (jerr "Both \x27test_case\x27 and \x27start_page_url\x27 must be provided."), [])
    else
      match env.getLlm with
      | .error e => (.error e, [.getLlm])
      | .ok false => (.ok (jerr "Unable to access LLM for code generation."), [.getLlm])
      | .ok true =>
        let tcv := test_case.getD .jnull
        let spv := start_page_url.getD .jnull
        let rhv := relevant_html.getD .jnull
        let prompt := codePrompt spv tcv rhv
        match env.llmInvoke 0 prompt with
        | .error e => (.error e, [.getLlm, .llmCall prompt])
        | .ok content =>
          let code := pyStrip content
          let output_dir := osJoin env.fileDir "../../output"
          match env.makedirs output_dir with
          | .error e => (.error e, [.getLlm, .llmCall prompt, .makedirs output_dir])
          | .ok _ =>
            match pySlugJ tcv with
            | .error e => (.error e, [.getLlm, .llmCall prompt, .makedirs output_dir])
            | .ok slug =>
              let filename := pyTake 40 slug ++ ".cy.js"
              let file_path := osAbspath (osJoin output_dir filename)
              match env.writeFile file_path code with
              | .error e =>
                (.error e, [.getLlm, .llmCall prompt, .makedirs output_dir,
                  .fileWrite file_path code])
              | .ok _ =>
                match env.runProc file_path with
                | .error e =>
                  (.error e, [.getLlm, .llmCall prompt, .makedirs output_dir,
                    .fileWrite file_path code, .runProc file_path])
                | .ok (out, errS) =>
                  let cypress_output := out ++ "\n" ++ errS
                  if containsSub "failing" (pyLowerStr cypress_output) then
                    let fprompt := fixPrompt code cypress_output
                    match env.llmInvoke 1 fprompt with
                    | .error e =>
                      (.error e, [.getLlm, .llmCall prompt, .makedirs output_dir,
                        .fileWrite file_path code, .runProc file_path, .llmCall fprompt])
                    | .ok fixedContent =>
                      let fixed_code := pyStrip fixedContent
                      match env.writeFile file_path fixed_code with
                      | .error e =>
                        (.error e, [.getLlm, .llmCall prompt, .makedirs output_dir,
                          .fileWrite file_path code, .runProc file_path, .llmCall fprompt,
                          .fileWrite file_path fixed_code])
                      | .ok _ =>
                        (.ok (genCodeResult file_path),
                          [.getLlm, .llmCall prompt, .makedirs output_dir,
                            .fileWrite file_path code, .runProc file_path, .llmCall fprompt,
                            .fileWrite file_path fixed_code])
                  else
                    (.ok (genCodeResult file_path),
                      [.getLlm, .llmCall prompt, .makedirs output_dir,
                        .fileWrite file_path code, .runProc file_path])


/-- `generate_test_automation_code`: the top-level `except` turns any
exception into `{"error": "<Type>: <msg>", "traceback": tb}`. -/
def generate_test_automation_code (env : CodeEnv) (query : String) : String × List Event :=
  match genCodeBody env query with
  | (.ok j, tr) => (jsonDumps j, tr)
  | (.error e, tr) => (jsonDumps (errTb e), tr)


/-! ### `generate_test_plan_markdown` -/
/-- The input-format error message of the test-plan generator. -/
def planFormatMsg : String :=
  "Input must be a JSON string with \x27test_name\x27, \x27application_url\x27, and \x27test_cases\x27 fields, or a \x27query\x27 key containing such a JSON object."


/-- The robust input parsing of the test-plan generator: JSON parse with
quote swapping, `query`-key unwrapping (dict / JSON string /
`ast.literal_eval` fallback).  `.error ()` is any exception caught by the
outer parse `except`. -/
def planParse (env : PlanEnv) (query : String) : Except Unit JVal :=
  match jsonParse (swapQuotes query) with
  | none => .error ()
  | some parsed =>
    match parsed with
    | .jobj m =>
      match lookupJ m "query" with
      | some (.jobj mi) => .ok (.jobj mi)
      | some (.jstr s) =>
        match jsonParse (swapQuotes s) with
        | some d => .ok d
        | none =>
          match env.literalEval s with
          | .ok v => .ok v
          | .error _ => .error ()
      | some _ => .ok (.jobj m)
      | none => .ok (.jobj m)
    | _ => .ok parsed


/-- Success result of the test-plan generator. -/
def planResult (file_path : String) : JVal :=
  .jobj [("result", .jstr "Test plan markdown generated successfully"),
    ("file_path", .jstr file_path)]


/-- Body of `generate_test_plan_markdown` inside its top-level `try`. -/
def planBody (env : PlanEnv) (query : String) : Except PyExc JVal × List Event :=
  match planParse env query with
  | .error _ => (.ok (jerr planFormatMsg), [])
  | .ok data =>
    match data with
    | .jobj m =>
      let test_name := (lookupJ m "test_name").getD (.jstr "Untitled Test Plan")
      let application_url := (lookupJ m "application_url").getD (.jstr "")
      let test_cases := (lookupJ m "test_cases").getD (.jarr [])
      if test_cases.falsy then
        (.ok (jerr "At least one test case must be provided."), [])
      else
        match env.getLlm with
        | .error e => (.error e, [.getLlm])
        | .ok false =>
          (.ok (jerr "Unable to access LLM for test plan generation."), [.getLlm])
        | .ok true =>
          let prompt := planPrompt test_name application_url test_cases
          match env.llmInvoke 0 prompt with
          | .error e => (.error e, [.getLlm, .llmCall prompt])
          | .ok content =>
            let markdown_content := pyStrip content
            let output_dir := osJoin env.fileDir "../../output"
            match env.makedirs output_dir with
            | .error e => (.error e, [.getLlm, .llmCall prompt, .makedirs output_dir])
            | .ok _ =>
              match pySlugJ test_name with
              | .error e => (.error e, [.getLlm, .llmCall prompt, .makedirs output_dir])
              | .ok slug =>
                let filename := env.today ++ "_" ++ slug ++ ".md"
                let file_path := osAbspath (osJoin output_dir filename)
                match env.writeFile file_path markdown_content with
                | .error e =>
                  (.error e, [.getLlm, .llmCall prompt, .makedirs output_dir,
                    .fileWrite file_path markdown_content])
                | .ok _ =>
                  (.ok (planResult file_path),
                    [.getLlm, .llmCall prompt, .makedirs output_dir,
                      .fileWrite file_path markdown_content])
    | _ => (.ok (jerr "Parsed input is not a dictionary."), [])


/-- `generate_test_plan_markdown`: the top-level `except` mirrors the code
generator error shape. -/
def generate_test_plan_markdown (env : PlanEnv) (query : String) : String × List Event :=
  match planBody env query with
  | (.ok j, tr) => (jsonDumps j, tr)
  | (.error e, tr) => (jsonDumps (errTb e), tr)




/-- `os.path.join(os.path.dirname(__file__), '../../output')`. -/
def outDir (env : CodeEnv) : String := osJoin env.fileDir "../../output"


/-- `os.path.abspath(os.path.join(output_dir, filename))` of the code
generator. -/
def codePath (env : CodeEnv) (tc : String) : String :=
  osAbspath (osJoin (outDir env) (codeFilename tc))


/-- An exception injected at the `builder.get_llm` call of the code
generator. -/
def w1Exc : PyExc :=
  ⟨"RuntimeError", "llm backend unavailable", "Traceback (most recent call last):\nRuntimeError: llm backend unavailable"⟩


/-- Code-generator environment whose `get_llm` raises. -/
def w1CodeEnv : CodeEnv :=
  ⟨.error w1Exc, fun _ _ => .ok "code", fun _ => .ok (), fun _ _ => .ok (),
    fun _ => .ok ("", ""), "/repo/src/navigator"⟩


/-- Analyzer environment that would succeed if reached. -/
def w2AnalyzeEnv : AnalyzeEnv :=
  ⟨fun _ => .ok ⟨200, "<html></html>"⟩, .ok true, fun _ _ => .ok "line"⟩


/-- Fully-working code-generator environment (never reached by the C3
witness). -/
def w3CodeEnv : CodeEnv :=
  ⟨.ok true, fun _ _ => .ok "code", fun _ => .ok (), fun _ _ => .ok (),
    fun _ => .ok ("", ""), "/repo/src/navigator"⟩


/-- Fully-working plan environment (never reached by the C4 witness). -/
def w4PlanEnv : PlanEnv :=
  ⟨fun _ => .ok .jnull, .ok true, fun _ _ => .ok "# plan", fun _ => .ok (),
    fun _ _ => .ok (), "20261012", "/repo/src/navigator"⟩


/-- Environment for the C6 witness: the Cypress run reports
`"5 FAILING tests"` (upper case, to exercise the case-insensitive
check), and both model calls and writes succeed. -/
def w6CodeEnv : CodeEnv :=
  ⟨.ok true, fun n _ => .ok (if n = 0 then "  code0  " else "code1"),
    fun _ => .ok (), fun _ _ => .ok (), fun _ => .ok ("5 FAILING tests", "boom"),
    "/repo/src/navigator"⟩


/-- Environment for the C7 witness: a clean, non-failing run. -/
def w7CodeEnv : CodeEnv :=
  ⟨.ok true, fun _ _ => .ok "cy.visit()", fun _ => .ok (), fun _ _ => .ok (),
    fun _ => .ok ("All specs passed", ""), "/repo/src/navigator"⟩


/-- Environment for the C8 witness. -/
def w8AnalyzeEnv : AnalyzeEnv :=
  ⟨fun _ => .ok ⟨200, "<html><a href=x></a></html>"⟩, .ok true,
    fun n _ => .ok (if n = 0 then "https://e.com/a\n\n  https://e.com/b  \n"
      else "Test login\nTest logout\n")⟩


/-- The C9 test payload: syntactically valid JSON whose `test_case` value
contains an apostrophe. -/
def c9Input : String :=
  "\x7b\"test_case\": \"Verify user\x27s login\", \"start_page_url\": \"https://example.com/login\"\x7d"


/-- Fully-working code-generator environment for C9 (never reached). -/
def w9CodeEnv : CodeEnv :=
  ⟨.ok true, fun _ _ => .ok "code", fun _ => .ok (), fun _ _ => .ok (),
    fun _ => .ok ("", ""), "/repo/src/navigator"⟩


/-- Fully-working plan environment for C9 (never reached). -/
def w9PlanEnv : PlanEnv :=
  ⟨fun _ => .ok .jnull, .ok true, fun _ _ => .ok "# plan", fun _ => .ok (),
    fun _ _ => .ok (), "20261012", "/repo/src/navigator"⟩


/-- Environment for the C10 witness. -/
def w10CodeEnv : CodeEnv :=
  ⟨.ok true, fun _ _ => .ok "code", fun _ => .ok (), fun _ _ => .ok (),
    fun _ => .ok ("ok", ""), "/repo/src/navigator"⟩


/-! ### Theorems -/

/-! ### Properties of `slugify` -/
theorem charOfNat_toNat {n : Nat} (h1 : 97 ≤ n) (h2 : n ≤ 122) :
    (Char.ofNat n).toNat = n := by
  have hv : n.isValidChar := Or.inl (by omega)
  simp [Char.ofNat, hv, Char.ofNatAux, Char.toNat, UInt32.toNat, BitVec.toNat_ofNatLt]


theorem toLowerAscii_toNat (c : Char) :
    (toLowerAscii c).toNat =
      if 65 ≤ c.toNat ∧ c.toNat ≤ 90 then c.toNat + 32 else c.toNat := by
  unfold toLowerAscii
  split
  · next h => exact charOfNat_toNat (by omega) (by omega)
  · rfl


theorem char_eq_of_toNat_eq {a b : Char} (h : a.toNat = b.toNat) : a = b :=
  Char.ext (UInt32.ext h)


theorem eq_und_iff_toNat (c : Char) : c = '_' ↔ c.toNat = 95 :=
  ⟨fun h => h ▸ rfl, fun h => char_eq_of_toNat_eq h⟩


theorem mem_collapseU {c : Char} : ∀ {l : List Char}, c ∈ collapseU l → c ∈ l := by
  intro l
  induction l using collapseU.induct with
  | case1 => simp [collapseU]
  | case2 d => simp [collapseU]
  | case3 a b rest h ih =>
    simp only [collapseU, if_pos h]
    intro hm
    exact List.mem_cons_of_mem a (ih hm)
  | case4 a b rest h ih =>
    simp only [collapseU, if_neg h]
    intro hm
    rcases List.mem_cons.mp hm with h1 | h2
    · exact h1 ▸ List.mem_cons_self a _
    · exact List.mem_cons_of_mem a (ih h2)


theorem mem_dropEndWhile {p : Char → Bool} {c : Char} :
    ∀ {l : List Char}, c ∈ dropEndWhile p l → c ∈ l := by
  intro l
  induction l with
  | nil => simp [dropEndWhile]
  | cons x xs ih =>
    simp only [dropEndWhile]
    cases hd : dropEndWhile p xs with
    | nil =>
      by_cases hp : p x
      · simp [hp]
      · simp only [if_neg hp, List.mem_singleton]
        intro hm
        exact hm ▸ List.mem_cons_self x _
    | cons d ds =>
      intro hm
      rcases List.mem_cons.mp hm with h1 | h2
      · exact h1 ▸ List.mem_cons_self x _
      · exact List.mem_cons_of_mem x (ih (hd ▸ h2))


theorem mem_pyStripP {p : Char → Bool} {c : Char} {l : List Char}
    (h : c ∈ pyStripP p l) : c ∈ l :=
  (List.dropWhile_suffix p).subset (mem_dropEndWhile h)


theorem replUnd_eq_self {e : Char} (h : isAsciiAlnum e = true) : replUnd e = e := by
  simp [replUnd, h]


theorem replUnd_eq_und {e : Char} (h : isAsciiAlnum e = false) : replUnd e = '_' := by
  simp [replUnd, h]


theorem toLowerAscii_und : toLowerAscii '_' = '_' := by decide


theorem isLowerSlugChar_toLower_alnum {e : Char} (h : isAsciiAlnum e = true) :
    isLowerSlugChar (toLowerAscii e) = true := by
  simp only [isAsciiAlnum, decide_eq_true_eq] at h
  have ht := toLowerAscii_toNat e
  simp only [isLowerSlugChar, decide_eq_true_eq]
  rw [ht]
  split <;> omega


theorem isLowerSlugChar_toLower_replUnd (e : Char) :
    isLowerSlugChar (toLowerAscii (replUnd e)) = true := by
  by_cases ha : isAsciiAlnum e
  · rw [replUnd_eq_self ha]; exact isLowerSlugChar_toLower_alnum ha
  · rw [replUnd_eq_und (Bool.not_eq_true _ |>.mp ha), toLowerAscii_und]; decide


/-- Every character of a slug is a lower-case alphanumeric or underscore. -/
theorem slugify_chars {s : String} {c : Char} (h : c ∈ (slugify s).data) :
    isLowerSlugChar c = true := by
  simp only [slugify] at h
  rcases List.mem_map.mp h with ⟨d, hd, rfl⟩
  have hd2 : d ∈ s.data.map replUnd := mem_collapseU (mem_pyStripP hd)
  rcases List.mem_map.mp hd2 with ⟨e, _, rfl⟩
  exact isLowerSlugChar_toLower_replUnd e



theorem noDubs_tail {x : Char} {xs : List Char} (h : noDubs (x :: xs) = true) :
    noDubs xs = true := by
  cases xs with
  | nil => rfl
  | cons y ys => exact (Bool.and_eq_true_iff.mp h).2


theorem collapseU_head (b : Char) (rest : List Char) :
    ∃ t, collapseU (b :: rest) = b :: t := by
  induction rest generalizing b with
  | nil => exact ⟨[], rfl⟩
  | cons c cs ih =>
    by_cases h : b = '_' ∧ c = '_'
    · rcases ih c with ⟨t, ht⟩
      refine ⟨t, ?_⟩
      rw [show collapseU (b :: c :: cs) = collapseU (c :: cs) by simp only [collapseU, if_pos h]]
      rw [ht, h.1, h.2]
    · exact ⟨collapseU (c :: cs), by simp only [collapseU, if_neg h]⟩


theorem noDubs_collapseU (l : List Char) : noDubs (collapseU l) = true := by
  induction l using collapseU.induct with
  | case1 => rfl
  | case2 c => rfl
  | case3 a b rest h ih => simp only [collapseU, if_pos h]; exact ih
  | case4 a b rest h ih =>
    simp only [collapseU, if_neg h]
    rcases collapseU_head b rest with ⟨t, ht⟩
    rw [ht] at ih ⊢
    simp only [noDubs, Bool.and_eq_true_iff]
    refine ⟨?_, ih⟩
    simp only [Bool.not_eq_true', decide_eq_false_iff_not]
    exact h


theorem noDubs_dropWhile (p : Char → Bool) {l : List Char} (h : noDubs l = true) :
    noDubs (l.dropWhile p) = true := by
  induction l with
  | nil => exact h
  | cons x xs ih =>
    by_cases hp : p x
    · rw [List.dropWhile_cons_of_pos hp]
      exact ih (noDubs_tail h)
    · rw [List.dropWhile_cons_of_neg hp]
      exact h


theorem dropEndWhile_head (p : Char → Bool) (y : Char) (ys : List Char) :
    dropEndWhile p (y :: ys) = [] ∨ ∃ t, dropEndWhile p (y :: ys) = y :: t := by
  simp only [dropEndWhile]
  cases hd : dropEndWhile p ys with
  | nil =>
    by_cases hp : p y
    · exact Or.inl (by simp [hp])
    · exact Or.inr ⟨[], by simp [hp]⟩
  | cons d ds => exact Or.inr ⟨d :: ds, rfl⟩


theorem noDubs_dropEndWhile (p : Char → Bool) {l : List Char} (h : noDubs l = true) :
    noDubs (dropEndWhile p l) = true := by
  induction l with
  | nil => exact h
  | cons x xs ih =>
    simp only [dropEndWhile]
    cases hd : dropEndWhile p xs with
    | nil =>
      by_cases hp : p x
      · simp [hp, noDubs]
      · simp [hp, noDubs]
    | cons d ds =>
      have hnd : noDubs (d :: ds) = true := hd ▸ ih (noDubs_tail h)
      cases xs with
      | nil => simp [dropEndWhile] at hd
      | cons y ys =>
        rcases dropEndWhile_head p y ys with h0 | ⟨t, ht⟩
        · rw [h0] at hd; cases hd
        · rw [ht] at hd
          injection hd with hdy hdt
          subst hdy
          simp only [noDubs, Bool.and_eq_true_iff] at h ⊢
          exact ⟨h.1, hnd⟩


theorem toLowerAscii_eq_und {c : Char} (h : toLowerAscii c = '_') : c = '_' := by
  have ht := toLowerAscii_toNat c
  rw [h] at ht
  have h95 : ('_' : Char).toNat = 95 := rfl
  rw [h95] at ht
  rw [eq_und_iff_toNat]
  split at ht <;> omega


theorem noDubs_map_toLower {l : List Char} (h : noDubs l = true) :
    noDubs (l.map toLowerAscii) = true := by
  induction l using noDubs.induct with
  | case1 => rfl
  | case2 c => rfl
  | case3 a b t ih =>
    simp only [List.map_cons, noDubs, Bool.and_eq_true_iff] at h ⊢
    refine ⟨?_, ih h.2⟩
    simp only [Bool.not_eq_true', decide_eq_false_iff_not] at h ⊢
    intro ⟨ha, hb⟩
    exact h.1 ⟨toLowerAscii_eq_und ha, toLowerAscii_eq_und hb⟩


theorem collapseU_eq_self {l : List Char} (h : noDubs l = true) : collapseU l = l := by
  induction l using collapseU.induct with
  | case1 => rfl
  | case2 c => rfl
  | case3 a b rest hab ih =>
    exfalso
    simp only [noDubs, Bool.and_eq_true_iff, Bool.not_eq_true', decide_eq_false_iff_not] at h
    exact h.1 hab
  | case4 a b rest hab ih =>
    simp only [collapseU, if_neg hab]
    rw [ih (noDubs_tail h)]


theorem dropWhile_head_not (p : Char → Bool) {l : List Char} {c : Char} {t : List Char}
    (h : l.dropWhile p = c :: t) : p c = false := by
  induction l with
  | nil => cases h
  | cons x xs ih =>
    by_cases hp : p x
    · rw [List.dropWhile_cons_of_pos hp] at h; exact ih h
    · rw [List.dropWhile_cons_of_neg hp] at h
      injection h with h1 _
      subst h1
      simpa using hp


theorem dropEndWhile_getLast (p : Char → Bool) {l r : List Char} (h : dropEndWhile p l = r)
    {c : Char} (hc : r.getLast? = some c) : p c = false := by
  induction l generalizing r with
  | nil => subst h; cases hc
  | cons x xs ih =>
    simp only [dropEndWhile] at h
    cases hd : dropEndWhile p xs with
    | nil =>
      rw [hd] at h
      by_cases hp : p x
      · rw [if_pos hp] at h; subst h; cases hc
      · rw [if_neg hp] at h; subst h
        simp only [List.getLast?_singleton, Option.some_inj] at hc
        subst hc
        simpa using hp
    | cons d ds =>
      rw [hd] at h
      subst h
      rw [List.getLast?_cons_cons] at hc
      exact ih hd hc


theorem dropWhile_eq_self_of_head (p : Char → Bool) {l : List Char}
    (h : ∀ c, l.head? = some c → p c = false) : l.dropWhile p = l := by
  cases l with
  | nil => rfl
  | cons x xs =>
    rw [List.dropWhile_cons_of_neg (by simp [h x rfl])]


theorem dropEndWhile_eq_self (p : Char → Bool) {l : List Char}
    (h : ∀ c, l.getLast? = some c → p c = false) : dropEndWhile p l = l := by
  induction l with
  | nil => rfl
  | cons x xs ih =>
    cases xs with
    | nil =>
      have hx : p x = false := h x rfl
      simp [dropEndWhile, hx]
    | cons y ys =>
      have h2 : ∀ c, (y :: ys).getLast? = some c → p c = false := by
        intro c hc
        exact h c (by rwa [List.getLast?_cons_cons])
      have hih := ih h2
      rw [dropEndWhile, hih]


theorem pyStripP_head (p : Char → Bool) {l r : List Char} (h : pyStripP p l = r)
    {c : Char} (hc : r.head? = some c) : p c = false := by
  unfold pyStripP at h
  cases hw : l.dropWhile p with
  | nil => rw [hw] at h; subst h; cases hc
  | cons a t =>
    rw [hw] at h
    rcases dropEndWhile_head p a t with h0 | ⟨t2, ht2⟩
    · rw [h0] at h; subst h; cases hc
    · rw [ht2] at h; subst h
      simp only [List.head?_cons, Option.some_inj] at hc
      subst hc
      exact dropWhile_head_not p hw


theorem pyStripP_getLast (p : Char → Bool) {l r : List Char} (h : pyStripP p l = r)
    {c : Char} (hc : r.getLast? = some c) : p c = false :=
  dropEndWhile_getLast p h hc


theorem pyStripP_eq_self (p : Char → Bool) {l : List Char}
    (hh : ∀ c, l.head? = some c → p c = false)
    (hl : ∀ c, l.getLast? = some c → p c = false) : pyStripP p l = l := by
  unfold pyStripP
  rw [dropWhile_eq_self_of_head p hh]
  exact dropEndWhile_eq_self p hl


theorem pyStripP_idem (p : Char → Bool) (l : List Char) :
    pyStripP p (pyStripP p l) = pyStripP p l := by
  apply pyStripP_eq_self
  · intro c hc; exact pyStripP_head p rfl hc
  · intro c hc; exact pyStripP_getLast p rfl hc


theorem map_id_on {α : Type} {f : α → α} : ∀ {l : List α}, (∀ c ∈ l, f c = c) → l.map f = l := by
  intro l h
  induction l with
  | nil => rfl
  | cons x xs ih =>
    simp only [List.map_cons, h x (List.mem_cons_self x xs),
      ih (fun c hc => h c (List.mem_cons_of_mem x hc))]



theorem replUnd_fix {c : Char} (h : isLowerSlugChar c = true) : replUnd c = c := by
  simp only [isLowerSlugChar, decide_eq_true_eq] at h
  rcases h with h1 | h1 | h1
  · exact replUnd_eq_self (by simp [isAsciiAlnum]; omega)
  · exact replUnd_eq_self (by simp [isAsciiAlnum]; omega)
  · rw [replUnd_eq_und (by simp [isAsciiAlnum]; omega)]
    exact (eq_und_iff_toNat c).mpr h1 |>.symm


theorem toLowerAscii_fix {c : Char} (h : isLowerSlugChar c = true) : toLowerAscii c = c := by
  simp only [isLowerSlugChar, decide_eq_true_eq] at h
  apply char_eq_of_toNat_eq
  rw [toLowerAscii_toNat]
  split
  · omega
  · rfl


theorem isUnd_false_of_toLower {d : Char} (h : isUnd d = false) :
    isUnd (toLowerAscii d) = false := by
  simp only [isUnd, beq_eq_false_iff_ne, ne_eq] at h ⊢
  intro hc
  exact h (toLowerAscii_eq_und hc)


/-- Characterization of the slug body used for idempotence. -/
theorem slugify_idem (s : String) : slugify (slugify s) = slugify s := by
  have hchars : ∀ c ∈ (slugify s).data, isLowerSlugChar c = true := fun c hc => slugify_chars hc
  have h1 : (slugify s).data.map replUnd = (slugify s).data :=
    map_id_on (fun c hc => replUnd_fix (hchars c hc))
  have hnd : noDubs (slugify s).data = true := by
    show noDubs ((pyStripP isUnd (collapseU (s.data.map replUnd))).map toLowerAscii) = true
    apply noDubs_map_toLower
    apply noDubs_dropEndWhile
    apply noDubs_dropWhile
    exact noDubs_collapseU _
  have h2 : collapseU (slugify s).data = (slugify s).data := collapseU_eq_self hnd
  have h3 : pyStripP isUnd (slugify s).data = (slugify s).data := by
    apply pyStripP_eq_self
    · intro c hc
      show isUnd c = false
      have : (slugify s).data.head? =
          ((pyStripP isUnd (collapseU (s.data.map replUnd))).head?).map toLowerAscii := by
        show ((pyStripP isUnd (collapseU (s.data.map replUnd))).map toLowerAscii).head? = _
        exact List.head?_map _ _
      rw [this] at hc
      cases hz : (pyStripP isUnd (collapseU (s.data.map replUnd))).head? with
      | none => rw [hz] at hc; cases hc
      | some d =>
        rw [hz] at hc
        simp only [Option.map_some', Option.some_inj] at hc
        subst hc
        exact isUnd_false_of_toLower (pyStripP_head isUnd rfl hz)
    · intro c hc
      show isUnd c = false
      have : (slugify s).data.getLast? =
          ((pyStripP isUnd (collapseU (s.data.map replUnd))).getLast?).map toLowerAscii := by
        show ((pyStripP isUnd (collapseU (s.data.map replUnd))).map toLowerAscii).getLast? = _
        exact List.getLast?_map _ _
      rw [this] at hc
      cases hz : (pyStripP isUnd (collapseU (s.data.map replUnd))).getLast? with
      | none => rw [hz] at hc; cases hc
      | some d =>
        rw [hz] at hc
        simp only [Option.map_some', Option.some_inj] at hc
        subst hc
        exact isUnd_false_of_toLower (pyStripP_getLast isUnd rfl hz)
  have h4 : (slugify s).data.map toLowerAscii = (slugify s).data :=
    map_id_on (fun c hc => toLowerAscii_fix (hchars c hc))
  show String.mk ((pyStripP isUnd (collapseU ((slugify s).data.map replUnd))).map toLowerAscii)
      = slugify s
  rw [h1, h2, h3, h4]


theorem slugify_of_no_alnum {s : String} (h : ∀ c ∈ s.data, isAsciiAlnum c = false) :
    slugify s = "" := by
  have hall2 : ∀ c ∈ collapseU (s.data.map replUnd), isUnd c = true := by
    intro c hc
    rcases List.mem_map.mp (mem_collapseU hc) with ⟨e, he, rfl⟩
    rw [replUnd_eq_und (h e he)]
    rfl
  have hdw : (collapseU (s.data.map replUnd)).dropWhile isUnd = [] :=
    List.dropWhile_eq_nil_iff.mpr hall2
  show String.mk ((pyStripP isUnd (collapseU (s.data.map replUnd))).map toLowerAscii) = ""
  unfold pyStripP
  rw [hdw]
  rfl


theorem splitChar_ne_nil (sep : Char) (l : List Char) : splitChar sep l ≠ [] := by
  cases l with
  | nil => simp [splitChar]
  | cons c cs =>
    simp only [splitChar]
    by_cases h : c = sep
    · simp [h]
    · simp only [if_neg h]
      cases splitChar sep cs <;> simp


theorem splitChar_no_sep {sep : Char} {l : List Char} (h : sep ∉ l) :
    splitChar sep l = [l] := by
  induction l with
  | nil => rfl
  | cons c cs ih =>
    have hc : ¬ c = sep := fun hcc => h (hcc ▸ List.mem_cons_self c cs)
    have hcs : sep ∉ cs := fun hm => h (List.mem_cons_of_mem c hm)
    simp only [splitChar, if_neg hc, ih hcs]


theorem splitChar_append_sep {sep : Char} (xs : List Char) {ys : List Char} (h : sep ∉ ys) :
    splitChar sep (xs ++ sep :: ys) = splitChar sep xs ++ [ys] := by
  induction xs with
  | nil =>
    simp only [List.nil_append, splitChar, if_pos rfl, splitChar_no_sep h]
    rfl
  | cons x xs ih =>
    by_cases hx : x = sep
    · simp only [List.cons_append, splitChar, if_pos hx]
      rw [show xs.append (sep :: ys) = xs ++ sep :: ys from rfl, ih]
    · simp only [List.cons_append, splitChar, if_neg hx]
      rw [show xs.append (sep :: ys) = xs ++ sep :: ys from rfl, ih]
      cases hs : splitChar sep xs with
      | nil => exact absurd hs (splitChar_ne_nil sep xs)
      | cons g gs => simp


theorem normGo_append_last (segs : List (List Char)) (f : List Char)
    (hf1 : ¬(f = [] ∨ f = ['.'])) (hf2 : f ≠ ['.', '.']) :
    ∀ stack, normGo stack (segs ++ [f]) = normGo stack segs ++ [f] := by
  induction segs with
  | nil =>
    intro stack
    simp only [List.nil_append, normGo, if_neg hf1, if_neg hf2]
    simp [normGo]
  | cons s rest ih =>
    intro stack
    by_cases h1 : s = [] ∨ s = ['.']
    · simp only [List.cons_append, normGo, if_pos h1]
      exact ih stack
    · by_cases h2 : s = ['.', '.']
      · simp only [List.cons_append, normGo, if_neg h1, if_pos h2]
        exact ih stack.tail
      · simp only [List.cons_append, normGo, if_neg h1, if_neg h2]
        exact ih (s :: stack)


theorem joinSeg_suffix (f : List Char) :
    ∀ ys, f <:+ joinSeg (ys ++ [f]) := by
  intro ys
  induction ys with
  | nil => exact List.suffix_refl f
  | cons y ys ih =>
    have hne : ys ++ [f] ≠ [] := by simp
    have : joinSeg (y :: (ys ++ [f])) = y ++ '/' :: joinSeg (ys ++ [f]) := by
      cases hys : ys ++ [f] with
      | nil => exact absurd hys hne
      | cons a as => simp only [joinSeg]
    rw [List.cons_append, this]
    rcases ih with ⟨pre, hpre⟩
    exact ⟨y ++ '/' :: pre, by rw [← hpre]; simp⟩


/-- The final clean segment of a joined path survives `osAbspath` as a suffix. -/
theorem osAbspath_suffix (d f : String)
    (hsl : '/' ∉ f.data) (hf1 : ¬(f.data = [] ∨ f.data = ['.']))
    (hf2 : f.data ≠ ['.', '.']) :
    f.data <:+ (osAbspath (osJoin d f)).data := by
  have hdata : (osJoin d f).data = d.data ++ '/' :: f.data := by
    show (d ++ "/" ++ f).data = _
    rw [String.data_append, String.data_append]
    simp
  unfold osAbspath
  rw [hdata, splitChar_append_sep d.data hsl,
    normGo_append_last (splitChar '/' d.data) f.data hf1 hf2 []]
  rcases joinSeg_suffix f.data (normGo [] (splitChar '/' d.data)) with ⟨pre, hpre⟩
  exact ⟨'/' :: pre, by rw [← hpre]; simp⟩



theorem slugChar_ne_slash {c : Char} (h : isLowerSlugChar c = true) : c ≠ '/' := by
  simp only [isLowerSlugChar, decide_eq_true_eq] at h
  intro hc
  subst hc
  simp at h


theorem codeFilename_data (tc : String) :
    (codeFilename tc).data = (slugify tc).data.take 40 ++ ".cy.js".data := by
  show (pyTake 40 (slugify tc) ++ ".cy.js").data = _
  rw [String.data_append]
  rfl


theorem codeFilename_no_slash (tc : String) : '/' ∉ (codeFilename tc).data := by
  rw [codeFilename_data]
  intro hm
  rcases List.mem_append.mp hm with h1 | h1
  · exact slugChar_ne_slash (slugify_chars (List.take_subset 40 _ h1)) rfl
  · simp at h1


theorem codeFilename_len (tc : String) :
    6 ≤ (codeFilename tc).data.length := by
  rw [codeFilename_data, List.length_append]
  simp


theorem codeFilename_not_special (tc : String) :
    ¬((codeFilename tc).data = [] ∨ (codeFilename tc).data = ['.']) ∧
      (codeFilename tc).data ≠ ['.', '.'] := by
  have hl := codeFilename_len tc
  constructor
  · intro h
    rcases h with h | h <;> rw [h] at hl <;> simp at hl
  · intro h
    rw [h] at hl
    simp at hl


/-- The derived Cypress file path always ends in the slugified, truncated
filename: `abspath(join(output_dir, filename))` keeps `filename` as its
final segment. -/
theorem codeFilename_suffix_path (d tc : String) :
    (codeFilename tc).data <:+ (osAbspath (osJoin d (codeFilename tc))).data :=
  osAbspath_suffix d (codeFilename tc) (codeFilename_no_slash tc)
    (codeFilename_not_special tc).1 (codeFilename_not_special tc).2


/-- The slug never starts with an underscore. -/
theorem slugify_head_ne_und (x : String) {c : Char}
    (h : (slugify x).data.head? = some c) : c ≠ '_' := by
  have hmap : (slugify x).data =
      (pyStripP isUnd (collapseU (x.data.map replUnd))).map toLowerAscii := rfl
  rw [hmap, List.head?_map] at h
  cases hz : (pyStripP isUnd (collapseU (x.data.map replUnd))).head? with
  | none => rw [hz] at h; cases h
  | some d =>
    rw [hz] at h
    simp only [Option.map_some', Option.some_inj] at h
    subst h
    have hd : isUnd d = false := pyStripP_head isUnd rfl hz
    intro hc
    have := toLowerAscii_eq_und hc
    rw [this] at hd
    cases hd


/-- The slug never ends with an underscore. -/
theorem slugify_getLast_ne_und (x : String) {c : Char}
    (h : (slugify x).data.getLast? = some c) : c ≠ '_' := by
  have hmap : (slugify x).data =
      (pyStripP isUnd (collapseU (x.data.map replUnd))).map toLowerAscii := rfl
  rw [hmap, List.getLast?_map] at h
  cases hz : (pyStripP isUnd (collapseU (x.data.map replUnd))).getLast? with
  | none => rw [hz] at h; cases h
  | some d =>
    rw [hz] at h
    simp only [Option.map_some', Option.some_inj] at h
    subst h
    have hd : isUnd d = false := pyStripP_getLast isUnd rfl hz
    intro hc
    have := toLowerAscii_eq_und hc
    rw [this] at hd
    cases hd


/-- The slug has no consecutive underscores. -/
theorem slugify_noDubs (x : String) : noDubs (slugify x).data = true := by
  show noDubs ((pyStripP isUnd (collapseU (x.data.map replUnd))).map toLowerAscii) = true
  apply noDubs_map_toLower
  apply noDubs_dropEndWhile
  apply noDubs_dropWhile
  exact noDubs_collapseU _


/-- Elements produced by split/strip/drop are non-empty and strip-fixed. -/
theorem splitTrimDrop_mem {s x : String} (h : x ∈ splitTrimDrop s) :
    x ≠ "" ∧ pyStrip x = x := by
  unfold splitTrimDrop at h
  rcases List.mem_map.mp h with ⟨l, hl, rfl⟩
  rcases List.mem_filter.mp hl with ⟨hl2, hne⟩
  rcases List.mem_map.mp hl2 with ⟨l0, _, rfl⟩
  constructor
  · intro hc
    have : pyStripP isPyWs l0 = [] := congrArg String.data hc
    rw [this] at hne
    simp at hne
  · show String.mk (pyStripP isPyWs (String.mk (pyStripP isPyWs l0)).data) = _
    rw [show (String.mk (pyStripP isPyWs l0)).data = pyStripP isPyWs l0 from rfl]
    rw [pyStripP_idem]




/-- Full run of the code generator under a successful environment:
result and event trace in both the repairing and the non-repairing case. -/
theorem genCodeRun (env : CodeEnv) (q tc url : String) (rh : Option JVal)
    (c out errS c2 : String)
    (hp : parseFieldsCode q = .ok (some (.jstr tc), some (.jstr url), rh))
    (htc : tc ≠ "") (hurl : url ≠ "")
    (hllm : env.getLlm = .ok true)
    (h1 : env.llmInvoke 0 (codePrompt (.jstr url) (.jstr tc) (rh.getD .jnull)) = .ok c)
    (hmk : env.makedirs (outDir env) = .ok ())
    (hw1 : env.writeFile (codePath env tc) (pyStrip c) = .ok ())
    (hrun : env.runProc (codePath env tc) = .ok (out, errS))
    (h2 : env.llmInvoke 1 (fixPrompt (pyStrip c) (out ++ "\n" ++ errS)) = .ok c2)
    (hw2 : env.writeFile (codePath env tc) (pyStrip c2) = .ok ()) :
    generate_test_automation_code env q =
      (jsonDumps (genCodeResult (codePath env tc)),
        if containsSub "failing" (pyLowerStr (out ++ "\n" ++ errS)) then
          [.getLlm, .llmCall (codePrompt (.jstr url) (.jstr tc) (rh.getD .jnull)),
            .makedirs (outDir env), .fileWrite (codePath env tc) (pyStrip c),
            .runProc (codePath env tc),
            .llmCall (fixPrompt (pyStrip c) (out ++ "\n" ++ errS)),
            .fileWrite (codePath env tc) (pyStrip c2)]
        else
          [.getLlm, .llmCall (codePrompt (.jstr url) (.jstr tc) (rh.getD .jnull)),
            .makedirs (outDir env), .fileWrite (codePath env tc) (pyStrip c),
            .runProc (codePath env tc)]) := by
  have htc' : pyNotOpt (some (.jstr tc)) = false := by
    simp [pyNotOpt, JVal.falsy, htc]
  have hurl' : pyNotOpt (some (.jstr url)) = false := by
    simp [pyNotOpt, JVal.falsy, hurl]
  have hb : genCodeBody env q =
      (.ok (genCodeResult (codePath env tc)),
        if containsSub "failing" (pyLowerStr (out ++ "\n" ++ errS)) then
          [.getLlm, .llmCall (codePrompt (.jstr url) (.jstr tc) (rh.getD .jnull)),
            .makedirs (outDir env), .fileWrite (codePath env tc) (pyStrip c),
            .runProc (codePath env tc),
            .llmCall (fixPrompt (pyStrip c) (out ++ "\n" ++ errS)),
            .fileWrite (codePath env tc) (pyStrip c2)]
        else
          [.getLlm, .llmCall (codePrompt (.jstr url) (.jstr tc) (rh.getD .jnull)),
            .makedirs (outDir env), .fileWrite (codePath env tc) (pyStrip c),
            .runProc (codePath env tc)]) := by
    unfold genCodeBody
    rw [hp]
    simp only [htc', hurl', Bool.or_false, if_neg (Bool.false_ne_true)]
    rw [hllm]
    simp only [Option.getD_some]
    rw [show osJoin env.fileDir "../../output" = outDir env from rfl]
    rw [h1]
    rw [hmk]
    simp only [pySlugJ]
    rw [show pyTake 40 (slugify tc) ++ ".cy.js" = codeFilename tc from rfl]
    rw [show osAbspath (osJoin (outDir env) (codeFilename tc)) = codePath env tc from rfl]
    rw [hw1, hrun]
    dsimp only
    by_cases hf : containsSub "failing" (pyLowerStr (out ++ "\n" ++ errS)) = true
    · simp [hf, h2, hw2]
    · simp [hf]
  unfold generate_test_automation_code
  rw [hb]




/-- C1: every invocation of each of the three tool handlers returns a JSON
string (the embedding is total and every path ends in `json.dumps`), and
whenever the body raises an exception the top-level `except` catches it:
the two generator handlers return
`{"error": "<ExceptionType>: <message>", "traceback": <full trace text>}`
and the analyzer returns `{"error": str(e)}`.  No invocation raises to
the caller. -/
theorem c1_no_uncaught_exception :
    (∀ (env : AnalyzeEnv) (q : String), ∃ j : JVal, (analyze_webpage env q).1 = jsonDumps j) ∧
    (∀ (env : CodeEnv) (q : String), ∃ j : JVal,
      (generate_test_automation_code env q).1 = jsonDumps j) ∧
    (∀ (env : PlanEnv) (q : String), ∃ j : JVal,
      (generate_test_plan_markdown env q).1 = jsonDumps j) ∧
    (∀ (env : CodeEnv) (q : String) (e : PyExc) (tr : List Event),
      genCodeBody env q = (.error e, tr) →
      generate_test_automation_code env q =
        (jsonDumps (.jobj [("error", .jstr (e.name ++ ": " ++ e.msg)),
          ("traceback", .jstr e.trace)]), tr)) ∧
    (∀ (env : PlanEnv) (q : String) (e : PyExc) (tr : List Event),
      planBody env q = (.error e, tr) →
      generate_test_plan_markdown env q =
        (jsonDumps (.jobj [("error", .jstr (e.name ++ ": " ++ e.msg)),
          ("traceback", .jstr e.trace)]), tr)) ∧
    (∀ (env : AnalyzeEnv) (q : String) (e : PyExc) (tr : List Event),
      analyzeBody env q = (.error e, tr) →
      analyze_webpage env q = (jsonDumps (jerr e.msg), tr)) := by
  refine ⟨?_, ?_, ?_, ?_, ?_, ?_⟩
  · intro env q
    rcases hb : analyzeBody env q with ⟨r, tr⟩
    cases r with
    | ok j => exact ⟨j, by unfold analyze_webpage; rw [hb]⟩
    | error e => exact ⟨jerr e.msg, by unfold analyze_webpage; rw [hb]⟩
  · intro env q
    rcases hb : genCodeBody env q with ⟨r, tr⟩
    cases r with
    | ok j => exact ⟨j, by unfold generate_test_automation_code; rw [hb]⟩
    | error e => exact ⟨errTb e, by unfold generate_test_automation_code; rw [hb]⟩
  · intro env q
    rcases hb : planBody env q with ⟨r, tr⟩
    cases r with
    | ok j => exact ⟨j, by unfold generate_test_plan_markdown; rw [hb]⟩
    | error e => exact ⟨errTb e, by unfold generate_test_plan_markdown; rw [hb]⟩
  · intro env q e tr h
    unfold generate_test_automation_code
    rw [h]
    rfl
  · intro env q e tr h
    unfold generate_test_plan_markdown
    rw [h]
    rfl
  · intro env q e tr h
    unfold analyze_webpage
    rw [h]


/-- C1 witness: a concrete exception in `get_llm` is caught and returned
as the documented error object. -/
theorem c1_no_uncaught_exception_witness :
    generate_test_automation_code w1CodeEnv
        "\x7b\"test_case\": \"T\", \"start_page_url\": \"u\"\x7d" =
      (jsonDumps (.jobj [("error", .jstr ("RuntimeError" ++ ": " ++ "llm backend unavailable")),
        ("traceback", .jstr w1Exc.trace)]), [.getLlm]) := by
  exact c1_no_uncaught_exception.2.2.2.1 w1CodeEnv
    "\x7b\"test_case\": \"T\", \"start_page_url\": \"u\"\x7d" w1Exc [.getLlm] rfl


/-- C2: whenever the analyzer input normalizes to a string that (after
`strip()`) does not start with `http://` or `https://`, the handler
returns exactly the fixed error object and performs no HTTP fetch and no
model call (the event trace is empty). -/
theorem c2_invalid_url_error (env : AnalyzeEnv) (q s : String)
    (hn : analyzeNormalize q = .jstr s)
    (hs : (pyStartsWith (pyStrip s) "http://" || pyStartsWith (pyStrip s) "https://") = false) :
    analyze_webpage env q =
      (jsonDumps (jerr "Please provide a valid URL starting with http:// or https://"), []) := by
  have hb : analyzeBody env q =
      (.ok (jerr "Please provide a valid URL starting with http:// or https://"), []) := by
    unfold analyzeBody
    rw [hn]
    simp [hs]
  unfold analyze_webpage
  rw [hb]


/-- C2 witness: the input `"hello"` normalizes to itself and is rejected
without any external call. -/
theorem c2_invalid_url_error_witness :
    analyze_webpage w2AnalyzeEnv "hello" =
      (jsonDumps (jerr "Please provide a valid URL starting with http:// or https://"), []) := by
  exact c2_invalid_url_error w2AnalyzeEnv "hello" "hello" rfl rfl


/-- C3: if the code-generator payload parses but `test_case` or
`start_page_url` is absent, the handler returns exactly the documented
error object, with an empty event trace: in particular the model handle
is not obtained and no model call happens. -/
theorem c3_missing_fields_error (env : CodeEnv) (q : String) (a b rh : Option JVal)
    (hp : parseFieldsCode q = .ok (a, b, rh))
    (hm : a = none ∨ b = none) :
    generate_test_automation_code env q =
      (jsonDumps (jerr "Both \x27test_case\x27 and \x27start_page_url\x27 must be provided."), []) := by
  have hb : genCodeBody env q =
      (.ok (jerr "Both \x27test_case\x27 and \x27start_page_url\x27 must be provided."), []) := by
    unfold genCodeBody
    rw [hp]
    rcases hm with h | h <;> subst h <;> simp [pyNotOpt]
  unfold generate_test_automation_code
  rw [hb]


/-- C3 witness: a payload with only `test_case` is rejected before any
model interaction. -/
theorem c3_missing_fields_error_witness :
    generate_test_automation_code w3CodeEnv "\x7b\"test_case\": \"Login\"\x7d" =
      (jsonDumps (jerr "Both \x27test_case\x27 and \x27start_page_url\x27 must be provided."), []) := by
  exact c3_missing_fields_error w3CodeEnv "\x7b\"test_case\": \"Login\"\x7d"
    (some (.jstr "Login")) none none rfl (Or.inr rfl)


/-- C4: if the test-plan payload normalizes to a dict whose `test_cases`
is absent or the empty collection, the handler returns exactly the
documented error object with an empty event trace (no model call, no
file write), regardless of `test_name` and `application_url`. -/
theorem c4_empty_test_cases_error (env : PlanEnv) (q : String) (m : List (String × JVal))
    (hp : planParse env q = .ok (.jobj m))
    (hm : lookupJ m "test_cases" = none ∨ lookupJ m "test_cases" = some (.jarr [])) :
    generate_test_plan_markdown env q =
      (jsonDumps (jerr "At least one test case must be provided."), []) := by
  have hb : planBody env q = (.ok (jerr "At least one test case must be provided."), []) := by
    unfold planBody
    rw [hp]
    dsimp only
    rcases hm with h | h <;> rw [h] <;> simp [JVal.falsy]
  unfold generate_test_plan_markdown
  rw [hb]


/-- C4 witness: an empty `test_cases` with other fields present is
rejected before any model interaction. -/
theorem c4_empty_test_cases_error_witness :
    generate_test_plan_markdown w4PlanEnv
        "\x7b\"test_name\": \"Smoke Test\", \"application_url\": \"https://x.test\", \"test_cases\": []\x7d" =
      (jsonDumps (jerr "At least one test case must be provided."), []) := by
  exact c4_empty_test_cases_error w4PlanEnv
    "\x7b\"test_name\": \"Smoke Test\", \"application_url\": \"https://x.test\", \"test_cases\": []\x7d"
    [("test_name", .jstr "Smoke Test"), ("application_url", .jstr "https://x.test"),
      ("test_cases", .jarr [])] rfl (Or.inr rfl)




/-- C5 counterexample: the claim says the filename stem is at most 40
characters before the fixed suffix "in both generator handlers", but the
test-plan generator applies no truncation: a 50-character test name
yields a 59-character stem `<date>_<slug>` before `".md"`. -/
theorem c5_plan_stem_unbounded :
    planFilename "20261012" (String.mk (List.replicate 50 'a')) =
      planStem "20261012" (String.mk (List.replicate 50 'a')) ++ ".md" ∧
    (planStem "20261012" (String.mk (List.replicate 50 'a'))).length = 59 ∧
    ¬ (planStem "20261012" (String.mk (List.replicate 50 'a'))).length ≤ 40 := by
  refine ⟨rfl, by decide, by decide⟩


/-- C5 (amended): `slugify` is deterministic (a pure function) and
idempotent; its result has no consecutive underscores, no leading or
trailing underscore, and only lower-case alphanumerics or underscores;
and in the code generator the filename stem is truncated to at most 40
characters before the fixed suffix `".cy.js"`.  (The test-plan generator
appends the full, untruncated slug to the date prefix.) -/
theorem c5_slugify_idempotent_amended :
    (∀ x : String, slugify (slugify x) = slugify x) ∧
    (∀ x : String, noDubs (slugify x).data = true) ∧
    (∀ (x : String) (c : Char), (slugify x).data.head? = some c → c ≠ '_') ∧
    (∀ (x : String) (c : Char), (slugify x).data.getLast? = some c → c ≠ '_') ∧
    (∀ (x : String), ∀ c ∈ (slugify x).data, isLowerSlugChar c = true) ∧
    (∀ x : String, ∃ stem, codeFilename x = stem ++ ".cy.js" ∧ stem.length ≤ 40) := by
  refine ⟨slugify_idem, slugify_noDubs, ?_, ?_, ?_, ?_⟩
  · intro x c h; exact slugify_head_ne_und x h
  · intro x c h; exact slugify_getLast_ne_und x h
  · intro x c h; exact slugify_chars h
  · intro x
    refine ⟨pyTake 40 (slugify x), rfl, ?_⟩
    show (String.mk ((slugify x).data.take 40)).length ≤ 40
    have : (String.mk ((slugify x).data.take 40)).length = ((slugify x).data.take 40).length := rfl
    rw [this, List.length_take]
    omega


/-- C5 witness: the slug properties instantiated at a concrete string. -/
theorem c5_slugify_idempotent_amended_witness :
    slugify (slugify "Login -- with  VALID credentials!") =
      slugify "Login -- with  VALID credentials!" ∧ ('l' : Char) ≠ '_' := by
  exact ⟨c5_slugify_idempotent_amended.1 "Login -- with  VALID credentials!",
    c5_slugify_idempotent_amended.2.2.1 "Login -- with  VALID credentials!" 'l' rfl⟩


/-- C6: under a successful environment, the repair model call happens if
and only if the combined stdout+stderr of the Cypress run contains
`"failing"` case-insensitively; when it does, exactly one repair call is
made, the file at the derived path is overwritten once with the
corrected code as the final event, and only one process execution
occurs. -/
theorem c6_repair_iff_failing (env : CodeEnv) (q tc url : String) (rh : Option JVal)
    (c out errS c2 : String)
    (hp : parseFieldsCode q = .ok (some (.jstr tc), some (.jstr url), rh))
    (htc : tc ≠ "") (hurl : url ≠ "")
    (hllm : env.getLlm = .ok true)
    (h1 : env.llmInvoke 0 (codePrompt (.jstr url) (.jstr tc) (rh.getD .jnull)) = .ok c)
    (hmk : env.makedirs (outDir env) = .ok ())
    (hw1 : env.writeFile (codePath env tc) (pyStrip c) = .ok ())
    (hrun : env.runProc (codePath env tc) = .ok (out, errS))
    (h2 : env.llmInvoke 1 (fixPrompt (pyStrip c) (out ++ "\n" ++ errS)) = .ok c2)
    (hw2 : env.writeFile (codePath env tc) (pyStrip c2) = .ok ()) :
    ((countLlmCalls (generate_test_automation_code env q).2 = 2) ↔
      containsSub "failing" (pyLowerStr (out ++ "\n" ++ errS)) = true) ∧
    (containsSub "failing" (pyLowerStr (out ++ "\n" ++ errS)) = true →
      (generate_test_automation_code env q).2 =
        [.getLlm, .llmCall (codePrompt (.jstr url) (.jstr tc) (rh.getD .jnull)),
          .makedirs (outDir env), .fileWrite (codePath env tc) (pyStrip c),
          .runProc (codePath env tc),
          .llmCall (fixPrompt (pyStrip c) (out ++ "\n" ++ errS)),
          .fileWrite (codePath env tc) (pyStrip c2)]) ∧
    (containsSub "failing" (pyLowerStr (out ++ "\n" ++ errS)) = false →
      (generate_test_automation_code env q).2 =
        [.getLlm, .llmCall (codePrompt (.jstr url) (.jstr tc) (rh.getD .jnull)),
          .makedirs (outDir env), .fileWrite (codePath env tc) (pyStrip c),
          .runProc (codePath env tc)]) := by
  have hr := genCodeRun env q tc url rh c out errS c2 hp htc hurl hllm h1 hmk hw1 hrun h2 hw2
  rw [hr]
  by_cases hf : containsSub "failing" (pyLowerStr (out ++ "\n" ++ errS)) = true
  · rw [if_pos hf]
    refine ⟨?_, fun _ => rfl, fun hfalse => absurd hf (by simp [hfalse])⟩
    simp only [hf, iff_true]
    rfl
  · rw [if_neg hf]
    refine ⟨?_, fun htrue => absurd htrue hf, fun _ => rfl⟩
    constructor
    · intro h2c
      have h1 : countLlmCalls (jsonDumps (genCodeResult (codePath env tc)),
          [Event.getLlm, Event.llmCall (codePrompt (.jstr url) (.jstr tc) (rh.getD .jnull)),
            Event.makedirs (outDir env), Event.fileWrite (codePath env tc) (pyStrip c),
            Event.runProc (codePath env tc)]).2 = 1 := rfl
      rw [h2c] at h1
      exact absurd h1 (by decide)
    · intro htrue
      exact absurd htrue hf


/-- C6 witness: a concrete failing run makes exactly two model calls. -/
theorem c6_repair_iff_failing_witness :
    countLlmCalls (generate_test_automation_code w6CodeEnv
      "\x7b\"test_case\": \"Login now\", \"start_page_url\": \"https://e.com\"\x7d").2 = 2 := by
  exact (c6_repair_iff_failing w6CodeEnv
    "\x7b\"test_case\": \"Login now\", \"start_page_url\": \"https://e.com\"\x7d"
    "Login now" "https://e.com" none "  code0  " "5 FAILING tests" "boom" "code1"
    rfl (by decide) (by decide) rfl rfl rfl rfl rfl rfl rfl).1.mpr rfl




/-- C7: every successful code-generator run returns exactly
`{"result": "1 test case generated", "test_file_path": <path>}` — the
generated or repaired code is not part of the object — and the path ends
with the slugified, 40-character-truncated test case plus `".cy.js"`. -/
theorem c7_success_result_shape (env : CodeEnv) (q tc url : String) (rh : Option JVal)
    (c out errS c2 : String)
    (hp : parseFieldsCode q = .ok (some (.jstr tc), some (.jstr url), rh))
    (htc : tc ≠ "") (hurl : url ≠ "")
    (hllm : env.getLlm = .ok true)
    (h1 : env.llmInvoke 0 (codePrompt (.jstr url) (.jstr tc) (rh.getD .jnull)) = .ok c)
    (hmk : env.makedirs (outDir env) = .ok ())
    (hw1 : env.writeFile (codePath env tc) (pyStrip c) = .ok ())
    (hrun : env.runProc (codePath env tc) = .ok (out, errS))
    (h2 : env.llmInvoke 1 (fixPrompt (pyStrip c) (out ++ "\n" ++ errS)) = .ok c2)
    (hw2 : env.writeFile (codePath env tc) (pyStrip c2) = .ok ()) :
    (generate_test_automation_code env q).1 =
      jsonDumps (.jobj [("result", .jstr "1 test case generated"),
        ("test_file_path", .jstr (codePath env tc))]) ∧
    (pyTake 40 (slugify tc) ++ ".cy.js").data <:+ (codePath env tc).data := by
  have hr := genCodeRun env q tc url rh c out errS c2 hp htc hurl hllm h1 hmk hw1 hrun h2 hw2
  constructor
  · rw [hr]
    rfl
  · exact codeFilename_suffix_path (outDir env) tc


/-- C7 witness: the scenario of the spec, with the slugified path. -/
theorem c7_success_result_shape_witness :
    (generate_test_automation_code w7CodeEnv
      "\x7b\"test_case\": \"Login with valid credentials\", \"start_page_url\": \"https://example.com/login\"\x7d").1 =
      jsonDumps (.jobj [("result", .jstr "1 test case generated"),
        ("test_file_path", .jstr (codePath w7CodeEnv "Login with valid credentials"))]) := by
  exact (c7_success_result_shape w7CodeEnv
    "\x7b\"test_case\": \"Login with valid credentials\", \"start_page_url\": \"https://example.com/login\"\x7d"
    "Login with valid credentials" "https://example.com/login" none
    "cy.visit()" "All specs passed" "" "cy.visit()"
    rfl (by decide) (by decide) rfl rfl rfl rfl rfl rfl rfl).1


/-- C8: a successful analyzer run returns exactly the fields `urls` and
`tests`, each the corresponding model response split on newlines with
lines stripped and empties dropped; hence every element is non-empty and
equal to its own strip, in response order. -/
theorem c8_analyze_success_lists (env : AnalyzeEnv) (q s : String) (resp : HttpResp)
    (r1 r2 : String)
    (hn : analyzeNormalize q = .jstr s)
    (hs : (pyStartsWith (pyStrip s) "http://" || pyStartsWith (pyStrip s) "https://") = true)
    (hg : env.httpGet (pyStrip s) = .ok resp)
    (hst : resp.status < 400)
    (hllm : env.getLlm = .ok true)
    (h1 : env.llmInvoke 0 (urlPrompt (pyTake 15000 resp.text)) = .ok r1)
    (h2 : env.llmInvoke 1 (testPrompt (pyTake 15000 resp.text)) = .ok r2) :
    (analyze_webpage env q).1 =
      jsonDumps (.jobj [("urls", .jarr ((splitTrimDrop r1).map .jstr)),
        ("tests", .jarr ((splitTrimDrop r2).map .jstr))]) ∧
    (∀ x ∈ splitTrimDrop r1, x ≠ "" ∧ pyStrip x = x) ∧
    (∀ x ∈ splitTrimDrop r2, x ≠ "" ∧ pyStrip x = x) := by
  refine ⟨?_, fun x hx => splitTrimDrop_mem hx, fun x hx => splitTrimDrop_mem hx⟩
  have hb : analyzeBody env q =
      (.ok (.jobj [("urls", .jarr ((splitTrimDrop r1).map .jstr)),
        ("tests", .jarr ((splitTrimDrop r2).map .jstr))]),
       [.httpGet (pyStrip s), .getLlm, .llmCall (urlPrompt (pyTake 15000 resp.text)),
        .llmCall (testPrompt (pyTake 15000 resp.text))]) := by
    unfold analyzeBody
    rw [hn]
    dsimp only
    simp only [hs, Bool.not_true, Bool.false_eq_true, if_false]
    rw [hg]
    dsimp only
    rw [if_neg (by omega)]
    rw [hllm]
    dsimp only
    rw [h1]
    dsimp only
    rw [h2]
  unfold analyze_webpage
  rw [hb]


/-- C8 witness: a concrete successful run with messy model output. -/
theorem c8_analyze_success_lists_witness :
    (analyze_webpage w8AnalyzeEnv "https://e.com").1 =
      jsonDumps (.jobj [("urls", .jarr ((splitTrimDrop "https://e.com/a\n\n  https://e.com/b  \n").map .jstr)),
        ("tests", .jarr ((splitTrimDrop "Test login\nTest logout\n").map .jstr))]) := by
  exact (c8_analyze_success_lists w8AnalyzeEnv "https://e.com" "https://e.com"
    ⟨200, "<html><a href=x></a></html>"⟩
    "https://e.com/a\n\n  https://e.com/b  \n" "Test login\nTest logout\n"
    rfl rfl rfl (by decide) rfl rfl rfl).1


/-- C9: because both generator handlers replace every single quote by a
double quote before `json.loads`, this syntactically valid JSON input
(apostrophe inside a field value) fails to parse after the swap, and both
handlers return their input-format error object instead of processing
the fields — even under a fully-working environment. -/
theorem c9_quote_swap_breaks_valid_json :
    jsonParse c9Input = some (.jobj [("test_case", .jstr "Verify user\x27s login"),
      ("start_page_url", .jstr "https://example.com/login")]) ∧
    jsonParse (swapQuotes c9Input) = none ∧
    generate_test_automation_code w9CodeEnv c9Input = (jsonDumps (jerr genCodeFormatMsg), []) ∧
    generate_test_plan_markdown w9PlanEnv c9Input = (jsonDumps (jerr planFormatMsg), []) :=
  ⟨rfl, rfl, rfl, rfl⟩


/-- C10: a test case with no alphanumeric characters slugifies to the
empty string, so the code generator derives the bare filename `".cy.js"`
(empty stem plus fixed suffix) and writes the generated code there, and
the plan generator would derive `"<date>_.md"` for such a test name. -/
theorem c10_empty_slug_filenames (env : CodeEnv) (q s url : String) (rh : Option JVal)
    (c out errS c2 : String) (d : String)
    (halu : ∀ ch ∈ s.data, isAsciiAlnum ch = false)
    (hp : parseFieldsCode q = .ok (some (.jstr s), some (.jstr url), rh))
    (hne : s ≠ "") (hurl : url ≠ "")
    (hllm : env.getLlm = .ok true)
    (h1 : env.llmInvoke 0 (codePrompt (.jstr url) (.jstr s) (rh.getD .jnull)) = .ok c)
    (hmk : env.makedirs (outDir env) = .ok ())
    (hw1 : env.writeFile (codePath env s) (pyStrip c) = .ok ())
    (hrun : env.runProc (codePath env s) = .ok (out, errS))
    (h2 : env.llmInvoke 1 (fixPrompt (pyStrip c) (out ++ "\n" ++ errS)) = .ok c2)
    (hw2 : env.writeFile (codePath env s) (pyStrip c2) = .ok ()) :
    slugify s = "" ∧
    codeFilename s = ".cy.js" ∧
    planFilename d s = d ++ "_.md" ∧
    codePath env s = osAbspath (osJoin (outDir env) ".cy.js") ∧
    Event.fileWrite (codePath env s) (pyStrip c) ∈ (generate_test_automation_code env q).2 := by
  have hslug : slugify s = "" := slugify_of_no_alnum halu
  have hcf : codeFilename s = ".cy.js" := by
    show pyTake 40 (slugify s) ++ ".cy.js" = ".cy.js"
    rw [hslug]
    rfl
  refine ⟨hslug, hcf, ?_, ?_, ?_⟩
  · show planStem d s ++ ".md" = d ++ "_.md"
    apply String.ext
    show (planStem d s ++ ".md").data = _
    rw [String.data_append]
    show (d ++ "_" ++ slugify s).data ++ ".md".data = _
    rw [String.data_append, String.data_append, hslug]
    rw [String.data_append]
    simp
  · show osAbspath (osJoin (outDir env) (codeFilename s)) = _
    rw [hcf]
  · have hr := genCodeRun env q s url rh c out errS c2 hp hne hurl hllm h1 hmk hw1 hrun h2 hw2
    rw [hr]
    by_cases hf : containsSub "failing" (pyLowerStr (out ++ "\n" ++ errS)) = true
    · rw [if_pos hf]
      simp
    · rw [if_neg hf]
      simp




/-- C10 witness: the all-punctuation test case `"!!!"` produces the bare
filenames. -/
theorem c10_empty_slug_filenames_witness :
    slugify "!!!" = "" ∧ codeFilename "!!!" = ".cy.js" ∧
      planFilename "20261012" "!!!" = "20261012_.md" := by
  have h := c10_empty_slug_filenames w10CodeEnv
    "\x7b\"test_case\": \"!!!\", \"start_page_url\": \"u\"\x7d" "!!!" "u" none
    "code" "ok" "" "code" "20261012"
    (by decide) rfl (by decide) (by decide) rfl rfl rfl rfl rfl rfl rfl
  exact ⟨h.1, h.2.1, h.2.2.1⟩



end WebNav
